import Mathlib

/-!
# gen-kubecfg: the binding provisioner of `generate/client.go`

A shallow embedding of `generate.Client` and proofs about it.

The Go methods talk to a Kubernetes API through `kubernetes.Interface`.  Here
that interface is a record of handlers over an arbitrary cluster state `σ`
(`KubeClient σ`); every method of `Client` becomes a function that threads the
cluster state and returns, next to the Go return value, the chronological list
of the calls it issued (`Event`).  Go `error` values are `Option Err`
(`none` is `nil`).
-/

set_option autoImplicit false

namespace GenKubecfg

/-! ## Errors -/

/-- Go error values that occur in the program: an API status error carrying a
reason, an error built by `fmt.Errorf` without `%w`, and one built with `%w`
around an inner error. -/
inductive Err where
  | status (reason : String) (message : String)
  | errorf (message : String)
  | wrapf (message : String) (inner : Err)
  deriving DecidableEq, Repr

/-- The method `Error()` of an error. -/
def Err.Error : Err → String
  | .status _ message => message
  | .errorf message => message
  | .wrapf message _ => message

/-- The function `errors.Unwrap`. -/
def Err.Unwrap : Err → Option Err
  | .wrapf _ inner => some inner
  | _ => none

/-- The value of `metav1.StatusReasonNotFound`. -/
def StatusReasonNotFound : String := "NotFound"

/-- The function `apierrors.IsNotFound` of the API machinery, taken as the test
that the reason of the status error (found through the wrapping chain) is
`NotFound`.  The general theorems below use it only through the branches the
program takes on it. -/
def IsNotFound : Err → Bool
  | .status reason _ => reason == StatusReasonNotFound
  | .errorf _ => false
  | .wrapf _ inner => IsNotFound inner

/-! ## API objects -/

/-- The fields of `metav1.ObjectMeta` the program sets; Go's zero value is the
empty string. -/
structure ObjectMeta where
  name : String := ""
  nameSpace : String := ""
  deriving DecidableEq, Repr

/-- A `corev1.Namespace`. -/
structure Namespace where
  metadata : ObjectMeta := {}
  deriving DecidableEq, Repr

/-- A `rbacv1.Subject`. -/
structure Subject where
  kind : String := ""
  apiGroup : String := ""
  name : String := ""
  nameSpace : String := ""
  deriving DecidableEq, Repr

/-- A `rbacv1.RoleRef`. -/
structure RoleRef where
  apiGroup : String := ""
  kind : String := ""
  name : String := ""
  deriving DecidableEq, Repr

/-- A `rbacv1.RoleBinding`. -/
structure RoleBinding where
  metadata : ObjectMeta := {}
  subjects : List Subject := []
  roleRef : RoleRef := {}
  deriving DecidableEq, Repr

/-- A `rbacv1.ClusterRoleBinding`. -/
structure ClusterRoleBinding where
  metadata : ObjectMeta := {}
  subjects : List Subject := []
  roleRef : RoleRef := {}
  deriving DecidableEq, Repr

/-- A `certv1.CertificateSigningRequestSpec`. -/
structure CertificateSigningRequestSpec where
  request : List UInt8 := []
  signerName : String := ""
  usages : List String := []
  deriving DecidableEq, Repr

/-- A `certv1.CertificateSigningRequestCondition`. -/
structure CertificateSigningRequestCondition where
  type : String := ""
  status : String := ""
  reason : String := ""
  message : String := ""
  deriving DecidableEq, Repr

/-- A `certv1.CertificateSigningRequestStatus`. -/
structure CertificateSigningRequestStatus where
  conditions : List CertificateSigningRequestCondition := []
  certificate : List UInt8 := []
  deriving DecidableEq, Repr

/-- A `certv1.CertificateSigningRequest`. -/
structure CertificateSigningRequest where
  metadata : ObjectMeta := {}
  spec : CertificateSigningRequestSpec := {}
  status : CertificateSigningRequestStatus := {}
  deriving DecidableEq, Repr

/-- The value of `rbacv1.UserKind`. -/
def UserKind : String := "User"

/-- The value of `rbacv1.ServiceAccountKind`. -/
def ServiceAccountKind : String := "ServiceAccount"

/-- The value of `certv1.UsageClientAuth`. -/
def UsageClientAuth : String := "client auth"

/-- The value of `certv1.KubeAPIServerClientSignerName`. -/
def KubeAPIServerClientSignerName : String := "kubernetes.io/kube-apiserver-client"

/-- The value of `certv1.CertificateApproved`. -/
def CertificateApproved : String := "Approved"

/-- The value of `time.Second`, in nanoseconds. -/
def Second : Nat := 1000000000

/-! ## The API client and the record of a run -/

/-- What a method of `Client` does to the outside world, in the order it does
it: the API calls with their arguments, the sleeps, and the log lines (level,
format string and rendered operands). -/
inductive Event where
  | nsGet (name : String)
  | nsCreate (ns : Namespace)
  | rbGet (nameSpace : String) (name : String)
  | rbDelete (nameSpace : String) (name : String)
  | rbCreate (nameSpace : String) (rb : RoleBinding)
  | crbGet (name : String)
  | crbDelete (name : String)
  | crbCreate (crb : ClusterRoleBinding)
  | csrGet (name : String)
  | csrDelete (name : String)
  | csrCreate (csr : CertificateSigningRequest)
  | sleep (nanos : Nat)
  | log (level : String) (format : String) (args : List String)
  deriving DecidableEq, Repr

/-- The part of `kubernetes.Interface` the program uses, over a cluster state
`σ`.  A handler receives the arguments of the call and the current state and
answers with the error of the call (`none` for `nil`) and the next state.  The
object returned next to the error is dropped by every caller except the one of
the CSR `Get`, whose handler answers with the object or the error (a client
that answers with a nil object and a nil error, on which the Go code would
dereference nil, is not described). -/
structure KubeClient (σ : Type) where
  nsGet : String → σ → Option Err × σ
  nsCreate : Namespace → σ → Option Err × σ
  rbGet : String → String → σ → Option Err × σ
  rbDelete : String → String → σ → Option Err × σ
  rbCreate : String → RoleBinding → σ → Option Err × σ
  crbGet : String → σ → Option Err × σ
  crbDelete : String → σ → Option Err × σ
  crbCreate : ClusterRoleBinding → σ → Option Err × σ
  csrGet : String → σ → Except Err CertificateSigningRequest × σ
  csrDelete : String → σ → Option Err × σ
  csrCreate : CertificateSigningRequest → σ → Option Err × σ

/-- The result of running a method: its Go return value, the cluster state it
leaves, and the events it produced, oldest first. -/
structure Run (σ : Type) (α : Type) where
  ret : α
  cluster : σ
  trace : List Event

variable {σ : Type}

/-! ## The methods of `Client` -/

/-- The method `createNsIfNotExist`. -/
def createNsIfNotExist (K : KubeClient σ) (nameSpace : String) (s : σ) : Run σ (Option Err) :=
  match K.nsGet nameSpace s with
  | (some err, s1) =>
    if IsNotFound err then
      let ns : Namespace := { metadata := { name := nameSpace } }
      match K.nsCreate ns s1 with
      | (some err2, s2) => ⟨some err2, s2, [Event.nsGet nameSpace, Event.nsCreate ns]⟩
      | (none, s2) => ⟨none, s2, [Event.nsGet nameSpace, Event.nsCreate ns]⟩
    else
      ⟨none, s1, [Event.nsGet nameSpace]⟩
  | (none, s1) => ⟨none, s1, [Event.nsGet nameSpace]⟩

/-- The subject list both recreate methods build from `roleBindingType`. -/
def subjectsFor (roleBindingType username saNameSpace : String) : List Subject :=
  if roleBindingType = "User" then
    [{ kind := UserKind, name := username }]
  else
    [{ kind := ServiceAccountKind, name := username, nameSpace := saNameSpace }]

/-- The method `reCreateRoleBinding`. -/
def reCreateRoleBinding (K : KubeClient σ)
    (roleBindingType name username nameSpace roleRef saNameSpace : String) (s : σ) :
    Run σ (Option Err) :=
  let create (s1 : σ) (before : List Event) : Run σ (Option Err) :=
    let subj := subjectsFor roleBindingType username saNameSpace
    let rb : RoleBinding :=
      { metadata := { name := name, nameSpace := nameSpace },
        subjects := subj,
        roleRef := { kind := "ClusterRole", name := roleRef } }
    match K.rbCreate nameSpace rb s1 with
    | (some err, s2) => ⟨some err, s2, before ++ [Event.rbCreate nameSpace rb]⟩
    | (none, s2) => ⟨none, s2, before ++ [Event.rbCreate nameSpace rb]⟩
  match K.rbGet nameSpace name s with
  | (some err, s1) =>
    if !IsNotFound err then
      ⟨some err, s1, [Event.rbGet nameSpace name]⟩
    else
      create s1 [Event.rbGet nameSpace name]
  | (none, s1) =>
    match K.rbDelete nameSpace name s1 with
    | (some err, s2) => ⟨some err, s2, [Event.rbGet nameSpace name, Event.rbDelete nameSpace name]⟩
    | (none, s2) => create s2 [Event.rbGet nameSpace name, Event.rbDelete nameSpace name]

/-- The method `reCreateClusterRoleBinding`. -/
def reCreateClusterRoleBinding (K : KubeClient σ)
    (roleBindingType name username roleRef saNameSpace : String) (s : σ) :
    Run σ (Option Err) :=
  let create (s1 : σ) (before : List Event) : Run σ (Option Err) :=
    let subj := subjectsFor roleBindingType username saNameSpace
    let crb : ClusterRoleBinding :=
      { metadata := { name := name },
        subjects := subj,
        roleRef := { kind := "ClusterRole", name := roleRef } }
    match K.crbCreate crb s1 with
    | (some err, s2) => ⟨some err, s2, before ++ [Event.crbCreate crb]⟩
    | (none, s2) => ⟨none, s2, before ++ [Event.crbCreate crb]⟩
  match K.crbGet name s with
  | (some err, s1) =>
    if !IsNotFound err then
      ⟨some err, s1, [Event.crbGet name]⟩
    else
      create s1 [Event.crbGet name]
  | (none, s1) =>
    match K.crbDelete name s1 with
    | (some err, s2) => ⟨some err, s2, [Event.crbGet name, Event.crbDelete name]⟩
    | (none, s2) => create s2 [Event.crbGet name, Event.crbDelete name]

/-- The method `ReCreateK8sCSR`.  The conversion `[]byte(csrStr)` yields the
bytes of the string. -/
def ReCreateK8sCSR (K : KubeClient σ) (cn csrStr : String) (s : σ) : Run σ (Option Err) :=
  let k8sCSR : CertificateSigningRequest :=
    { metadata := { name := cn },
      spec :=
        { request := csrStr.toUTF8.data.toList,
          usages := [UsageClientAuth],
          signerName := KubeAPIServerClientSignerName } }
  let create (s1 : σ) : Run σ (Option Err) :=
    match K.csrCreate k8sCSR s1 with
    | (some err, s2) => ⟨some err, s2, [Event.csrDelete k8sCSR.metadata.name, Event.csrCreate k8sCSR]⟩
    | (none, s2) => ⟨none, s2, [Event.csrDelete k8sCSR.metadata.name, Event.csrCreate k8sCSR]⟩
  match K.csrDelete k8sCSR.metadata.name s with
  | (some err, s1) =>
    if !IsNotFound err then
      ⟨some err, s1, [Event.csrDelete k8sCSR.metadata.name]⟩
    else
      create s1
  | (none, s1) => create s1

/-- The scan `for _, c := range csr.Status.Conditions` of `WaitForK8sCsrReady`:
true when it reaches the `return`. -/
def approvedIn : List CertificateSigningRequestCondition → Bool
  | [] => false
  | c :: rest => if c.type = CertificateApproved then true else approvedIn rest

/-- The loop of `WaitForK8sCsrReady` with `remaining = 5 - i` iterations still to
run, and the statement after the loop when none is left. -/
def waitLoop (K : KubeClient σ) (name : String) :
    Nat → σ → Run σ (Option CertificateSigningRequest × Option Err)
  | 0, s => ⟨(none, some (Err.errorf "wait csr to be approved timeout")), s, []⟩
  | remaining + 1, s =>
    match K.csrGet name s with
    | (Except.error err, s1) =>
      let r := waitLoop K name remaining s1
      ⟨r.ret, r.cluster,
        [Event.csrGet name, Event.log "ERROR" "get %s csr err: %v" [err.Error], Event.sleep Second]
          ++ r.trace⟩
    | (Except.ok csr, s1) =>
      if csr.status.certificate.length = 0 then
        let r := waitLoop K name remaining s1
        ⟨r.ret, r.cluster, [Event.csrGet name, Event.sleep Second] ++ r.trace⟩
      else if approvedIn csr.status.conditions then
        ⟨(some csr, none), s1, [Event.csrGet name]⟩
      else
        let r := waitLoop K name remaining s1
        ⟨r.ret, r.cluster, [Event.csrGet name] ++ r.trace⟩

/-- The method `WaitForK8sCsrReady`. -/
def WaitForK8sCsrReady (K : KubeClient σ) (name : String) (s : σ) :
    Run σ (Option CertificateSigningRequest × Option Err) :=
  waitLoop K name 5 s

/-- The name `fmt.Sprintf("%s-%s", username, cr)` of a binding. -/
def bindingName (username cr : String) : String :=
  username ++ "-" ++ cr

/-- The loop `for _, cr := range clusterRoles` of the first branch of
`GenerateBinding`. -/
def clusterRoleLoop (K : KubeClient σ) (roleBindingType saNameSpace username : String) :
    List String → σ → Run σ (Option Err)
  | [], s => ⟨none, s, []⟩
  | cr :: rest, s =>
    let name := bindingName username cr
    let r := reCreateClusterRoleBinding K roleBindingType name username cr saNameSpace s
    match r.ret with
    | some err =>
      ⟨some (Err.wrapf ("create cluster role binding for " ++ username ++ " err: " ++ err.Error) err),
        r.cluster, r.trace⟩
    | none =>
      let r2 := clusterRoleLoop K roleBindingType saNameSpace username rest r.cluster
      ⟨r2.ret, r2.cluster,
        r.trace ++ [Event.log "INFO" "create cluster role binding %s success" [name]] ++ r2.trace⟩

/-- The inner loop `for _, cr := range clusterRoles` of the second branch of
`GenerateBinding`, for the namespace `ns`. -/
def roleLoop (K : KubeClient σ) (roleBindingType saNameSpace username ns : String) :
    List String → σ → Run σ (Option Err)
  | [], s => ⟨none, s, []⟩
  | cr :: rest, s =>
    let name := bindingName username cr
    let r := reCreateRoleBinding K roleBindingType name username ns cr saNameSpace s
    match r.ret with
    | some err =>
      ⟨some (Err.wrapf ("create role binding for " ++ username ++ " err: " ++ err.Error) err),
        r.cluster, r.trace⟩
    | none =>
      let r2 := roleLoop K roleBindingType saNameSpace username ns rest r.cluster
      ⟨r2.ret, r2.cluster,
        r.trace ++ [Event.log "INFO" "create role binding %s in %s namespace success" [name, ns]]
          ++ r2.trace⟩

/-- The outer loop `for _, ns := range namespaces` of the second branch of
`GenerateBinding`. -/
def namespaceLoop (K : KubeClient σ) (roleBindingType saNameSpace username : String)
    (clusterRoles : List String) : List String → σ → Run σ (Option Err)
  | [], s => ⟨none, s, []⟩
  | ns :: rest, s =>
    let r := createNsIfNotExist K ns s
    match r.ret with
    | some err =>
      ⟨some (Err.wrapf ("create namespace " ++ ns ++ ",err: " ++ err.Error) err), r.cluster, r.trace⟩
    | none =>
      let r2 := roleLoop K roleBindingType saNameSpace username ns clusterRoles r.cluster
      match r2.ret with
      | some err => ⟨some err, r2.cluster, r.trace ++ r2.trace⟩
      | none =>
        let r3 := namespaceLoop K roleBindingType saNameSpace username clusterRoles rest r2.cluster
        ⟨r3.ret, r3.cluster, r.trace ++ r2.trace ++ r3.trace⟩

/-- The method `GenerateBinding`. -/
def GenerateBinding (K : KubeClient σ) (roleBindingType saNameSpace username : String)
    (clusterRoles : List String) (namespaces : List String) (s : σ) : Run σ (Option Err) :=
  if namespaces.length = 0 then
    clusterRoleLoop K roleBindingType saNameSpace username clusterRoles s
  else
    namespaceLoop K roleBindingType saNameSpace username clusterRoles namespaces s

/-! ## Models of the cluster behind the client

The API server is not part of the repository.  The definitions below are
environments to run the methods in: an in-memory cluster, a stateless client
whose answers are fixed per call, and a client that answers the CSR `Get`
from a script. -/

/-- An in-memory cluster: the objects that were created and not deleted. -/
structure Cluster where
  namespaces : List Namespace := []
  roleBindings : List RoleBinding := []
  clusterRoleBindings : List ClusterRoleBinding := []
  csrs : List CertificateSigningRequest := []
  deriving DecidableEq, Repr

/-- The status error of a lookup or delete of an absent object. -/
def errNotFound (resource name : String) : Err :=
  Err.status StatusReasonNotFound (resource ++ " " ++ name ++ " not found")

/-- The status error of a create of an object that is already there. -/
def errAlreadyExists (resource name : String) : Err :=
  Err.status "AlreadyExists" (resource ++ " " ++ name ++ " already exists")

/-- The status error of a create whose object names another namespace than
the request. -/
def errBadRequest : Err :=
  Err.status "BadRequest" "request namespace does not match object namespace"

/-- The status error of a call the caller is not allowed to make. -/
def errForbidden : Err :=
  Err.status "Forbidden" "forbidden"

/-- Whether a role binding is the one stored under namespace and name. -/
def RoleBinding.hasKey (nameSpace name : String) (rb : RoleBinding) : Bool :=
  rb.metadata.nameSpace = nameSpace ∧ rb.metadata.name = name

/-- Whether a cluster role binding is the one stored under a name. -/
def ClusterRoleBinding.hasKey (name : String) (crb : ClusterRoleBinding) : Bool :=
  crb.metadata.name = name

/-- The in-memory client, after the object tracker of the fake clientset of
client-go: `Get` finds exactly what was created and not deleted, `Create` of a
present object and `Delete` of an absent one are errors, and no call fails for
any other reason. -/
def memClient : KubeClient Cluster where
  nsGet name s :=
    if s.namespaces.any (fun n => n.metadata.name = name) then (none, s)
    else (some (errNotFound "namespaces" name), s)
  nsCreate ns s :=
    if s.namespaces.any (fun n => n.metadata.name = ns.metadata.name) then
      (some (errAlreadyExists "namespaces" ns.metadata.name), s)
    else (none, { s with namespaces := s.namespaces ++ [ns] })
  rbGet nameSpace name s :=
    if s.roleBindings.any (RoleBinding.hasKey nameSpace name) then (none, s)
    else (some (errNotFound "rolebindings" name), s)
  rbDelete nameSpace name s :=
    if s.roleBindings.any (RoleBinding.hasKey nameSpace name) then
      (none, { s with
        roleBindings := s.roleBindings.filter (fun rb => !RoleBinding.hasKey nameSpace name rb) })
    else (some (errNotFound "rolebindings" name), s)
  rbCreate nameSpace rb s :=
    if rb.metadata.nameSpace ≠ nameSpace then (some errBadRequest, s)
    else if s.roleBindings.any (RoleBinding.hasKey nameSpace rb.metadata.name) then
      (some (errAlreadyExists "rolebindings" rb.metadata.name), s)
    else (none, { s with roleBindings := s.roleBindings ++ [rb] })
  crbGet name s :=
    if s.clusterRoleBindings.any (ClusterRoleBinding.hasKey name) then (none, s)
    else (some (errNotFound "clusterrolebindings" name), s)
  crbDelete name s :=
    if s.clusterRoleBindings.any (ClusterRoleBinding.hasKey name) then
      (none, { s with
        clusterRoleBindings :=
          s.clusterRoleBindings.filter (fun crb => !ClusterRoleBinding.hasKey name crb) })
    else (some (errNotFound "clusterrolebindings" name), s)
  crbCreate crb s :=
    if s.clusterRoleBindings.any (ClusterRoleBinding.hasKey crb.metadata.name) then
      (some (errAlreadyExists "clusterrolebindings" crb.metadata.name), s)
    else (none, { s with clusterRoleBindings := s.clusterRoleBindings ++ [crb] })
  csrGet name s :=
    match s.csrs.find? (fun c => c.metadata.name = name) with
    | some csr => (Except.ok csr, s)
    | none => (Except.error (errNotFound "certificatesigningrequests" name), s)
  csrDelete name s :=
    if s.csrs.any (fun c => c.metadata.name = name) then
      (none, { s with csrs := s.csrs.filter (fun c => !decide (c.metadata.name = name)) })
    else (some (errNotFound "certificatesigningrequests" name), s)
  csrCreate csr s :=
    if s.csrs.any (fun c => c.metadata.name = csr.metadata.name) then
      (some (errAlreadyExists "certificatesigningrequests" csr.metadata.name), s)
    else (none, { s with csrs := s.csrs ++ [csr] })

/-- A client without state: the error of a call is a fixed function of the
call, and the CSR `Get` a fixed function of the name. -/
def stubClient (answer : Event → Option Err)
    (csr : String → Except Err CertificateSigningRequest) : KubeClient Unit where
  nsGet name s := (answer (Event.nsGet name), s)
  nsCreate ns s := (answer (Event.nsCreate ns), s)
  rbGet nameSpace name s := (answer (Event.rbGet nameSpace name), s)
  rbDelete nameSpace name s := (answer (Event.rbDelete nameSpace name), s)
  rbCreate nameSpace rb s := (answer (Event.rbCreate nameSpace rb), s)
  crbGet name s := (answer (Event.crbGet name), s)
  crbDelete name s := (answer (Event.crbDelete name), s)
  crbCreate crb s := (answer (Event.crbCreate crb), s)
  csrGet name s := (csr name, s)
  csrDelete name s := (answer (Event.csrDelete name), s)
  csrCreate c s := (answer (Event.csrCreate c), s)

/-- The stateless client all of whose calls succeed. -/
def okClient : KubeClient Unit :=
  stubClient (fun _ => none) (fun name => Except.ok { metadata := { name := name } })

/-- A client whose state counts the CSR fetches made so far and whose `i`-th
fetch (from zero) answers `script i`; its other calls succeed. -/
def pollClient (script : Nat → Except Err CertificateSigningRequest) : KubeClient Nat where
  nsGet _ s := (none, s)
  nsCreate _ s := (none, s)
  rbGet _ _ s := (none, s)
  rbDelete _ _ s := (none, s)
  rbCreate _ _ s := (none, s)
  crbGet _ s := (none, s)
  crbDelete _ s := (none, s)
  crbCreate _ s := (none, s)
  csrGet _ s := (script s, s + 1)
  csrDelete _ s := (none, s)
  csrCreate _ s := (none, s)

/-! ## Reading a trace -/

/-- The objects of the `ClusterRoleBinding` creates of a trace, in order. -/
def crbCreates : List Event → List ClusterRoleBinding
  | [] => []
  | Event.crbCreate crb :: rest => crb :: crbCreates rest
  | _ :: rest => crbCreates rest

/-- The request namespaces and objects of the `RoleBinding` creates of a
trace, in order. -/
def rbCreates : List Event → List (String × RoleBinding)
  | [] => []
  | Event.rbCreate nameSpace rb :: rest => (nameSpace, rb) :: rbCreates rest
  | _ :: rest => rbCreates rest

/-- The objects of the CSR creates of a trace, in order. -/
def csrCreates : List Event → List CertificateSigningRequest
  | [] => []
  | Event.csrCreate csr :: rest => csr :: csrCreates rest
  | _ :: rest => csrCreates rest

/-- The namespace of a `RoleBinding` call, for the events that are one. -/
def Event.rbNamespace? : Event → Option String
  | Event.rbGet nameSpace _ => some nameSpace
  | Event.rbDelete nameSpace _ => some nameSpace
  | Event.rbCreate nameSpace _ => some nameSpace
  | _ => none

/-- Whether an event is a call on `RoleBindings`. -/
def Event.isRoleBindingCall (e : Event) : Bool :=
  e.rbNamespace?.isSome

/-- Whether an event is a call on `ClusterRoleBindings`. -/
def Event.isClusterRoleBindingCall : Event → Bool
  | Event.crbGet _ => true
  | Event.crbDelete _ => true
  | Event.crbCreate _ => true
  | _ => false

/-- Whether an event is a call on `Namespaces`. -/
def Event.isNamespaceCall : Event → Bool
  | Event.nsGet _ => true
  | Event.nsCreate _ => true
  | _ => false

/-- Whether an event is a CSR `Get`. -/
def Event.isFetch : Event → Bool
  | Event.csrGet _ => true
  | _ => false

/-- The number of CSR fetches in a trace. -/
def fetchCount (tr : List Event) : Nat :=
  (tr.filter Event.isFetch).length

/-! ## Vocabulary of the specification -/

/-- Every API call succeeds: a create or delete returns no error, and a lookup
returns no error other than the answer that the object is not there. -/
structure AllCallsSucceed (K : KubeClient σ) : Prop where
  nsGet : ∀ name s e, (K.nsGet name s).1 = some e → IsNotFound e = true
  nsCreate : ∀ ns s, (K.nsCreate ns s).1 = none
  rbGet : ∀ nameSpace name s e, (K.rbGet nameSpace name s).1 = some e → IsNotFound e = true
  rbDelete : ∀ nameSpace name s, (K.rbDelete nameSpace name s).1 = none
  rbCreate : ∀ nameSpace rb s, (K.rbCreate nameSpace rb s).1 = none
  crbGet : ∀ name s e, (K.crbGet name s).1 = some e → IsNotFound e = true
  crbDelete : ∀ name s, (K.crbDelete name s).1 = none
  crbCreate : ∀ crb s, (K.crbCreate crb s).1 = none

/-- The cluster state before the `i`-th CSR fetch (from zero) of a run that
starts in `s` and makes no other call. -/
def fetchState (K : KubeClient σ) (name : String) (s : σ) : Nat → σ
  | 0 => s
  | i + 1 => fetchState K name (K.csrGet name s).2 i

/-- The answer of the `i`-th CSR fetch (from zero) of such a run. -/
def fetchResult (K : KubeClient σ) (name : String) (s : σ) (i : Nat) :
    Except Err CertificateSigningRequest :=
  (K.csrGet name (fetchState K name s i)).1

/-- A fetch answer that ends the wait: no error, a certificate that is not
empty, and a condition of type `Approved`. -/
def Ready : Except Err CertificateSigningRequest → Prop
  | Except.ok csr =>
    csr.status.certificate ≠ [] ∧ ∃ c ∈ csr.status.conditions, c.type = "Approved"
  | Except.error _ => False

/-- A step of a binding batch. -/
inductive Step where
  | ensureNamespace (ns : String)
  | recreateClusterRoleBinding (cr : String)
  | recreateRoleBinding (ns : String) (cr : String)
  deriving DecidableEq, Repr

/-- The steps of a batch in input order: one cluster-wide recreate per role
when no namespace is given; otherwise, namespace by namespace, the ensure of
the namespace followed by one recreate per role. -/
def stepsOf (clusterRoles namespaces : List String) : List Step :=
  match namespaces with
  | [] => clusterRoles.map Step.recreateClusterRoleBinding
  | _ :: _ =>
    (namespaces.map (fun ns =>
      Step.ensureNamespace ns :: clusterRoles.map (Step.recreateRoleBinding ns))).flatten

/-- The call a step stands for. -/
def runStep (K : KubeClient σ) (roleBindingType saNameSpace username : String) :
    Step → σ → Run σ (Option Err)
  | Step.ensureNamespace ns, s => createNsIfNotExist K ns s
  | Step.recreateClusterRoleBinding cr, s =>
    reCreateClusterRoleBinding K roleBindingType (username ++ "-" ++ cr) username cr saNameSpace s
  | Step.recreateRoleBinding ns cr, s =>
    reCreateRoleBinding K roleBindingType (username ++ "-" ++ cr) username ns cr saNameSpace s

/-- The log line that follows a step that succeeded. -/
def stepLog (username : String) : Step → List Event
  | Step.ensureNamespace _ => []
  | Step.recreateClusterRoleBinding cr =>
    [Event.log "INFO" "create cluster role binding %s success" [username ++ "-" ++ cr]]
  | Step.recreateRoleBinding ns cr =>
    [Event.log "INFO" "create role binding %s in %s namespace success" [username ++ "-" ++ cr, ns]]

/-- Runs the steps one after the other from `s` as long as they succeed: the
cluster state and the events after the last one, or `none` when one of them
returns an error. -/
def runAll (K : KubeClient σ) (roleBindingType saNameSpace username : String) :
    List Step → σ → Option (σ × List Event)
  | [], s => some (s, [])
  | st :: rest, s =>
    let r := runStep K roleBindingType saNameSpace username st s
    match r.ret with
    | some _ => none
    | none =>
      match runAll K roleBindingType saNameSpace username rest r.cluster with
      | none => none
      | some (s1, tr) => some (s1, r.trace ++ stepLog username st ++ tr)

/-- Every `RoleBinding` call of the trace `tr` in a namespace comes after a
lookup of that namespace, in `seen` or earlier in `tr`. -/
def EnsuredBefore (seen tr : List Event) : Prop :=
  ∀ (before : List Event) (e : Event) (after : List Event) (ns : String),
    tr = before ++ e :: after → e.rbNamespace? = some ns → Event.nsGet ns ∈ seen ++ before

/-- The error `GenerateBinding` returns when a step fails with `err`. -/
def stepFailure (username : String) : Step → Err → Err
  | Step.ensureNamespace ns, err =>
    Err.wrapf ("create namespace " ++ ns ++ ",err: " ++ err.Error) err
  | Step.recreateClusterRoleBinding _, err =>
    Err.wrapf ("create cluster role binding for " ++ username ++ " err: " ++ err.Error) err
  | Step.recreateRoleBinding _ _, err =>
    Err.wrapf ("create role binding for " ++ username ++ " err: " ++ err.Error) err

/-- Runs the steps one after the other and stops at the first that fails. -/
def runBatch (K : KubeClient σ) (roleBindingType saNameSpace username : String) :
    List Step → σ → Run σ (Option Err)
  | [], s => ⟨none, s, []⟩
  | st :: rest, s =>
    let r := runStep K roleBindingType saNameSpace username st s
    match r.ret with
    | some err => ⟨some (stepFailure username st err), r.cluster, r.trace⟩
    | none =>
      let r2 := runBatch K roleBindingType saNameSpace username rest r.cluster
      ⟨r2.ret, r2.cluster, r.trace ++ stepLog username st ++ r2.trace⟩

/-- The text `needle` occurs in the text `msg`. -/
def Names (msg needle : String) : Prop :=
  needle.data <:+: msg.data

/-- Decides `Ready`. -/
instance Ready.decidable : (x : Except Err CertificateSigningRequest) → Decidable (Ready x)
  | Except.ok csr =>
    inferInstanceAs (Decidable
      (csr.status.certificate ≠ [] ∧ ∃ c ∈ csr.status.conditions, c.type = "Approved"))
  | Except.error _ => isFalse (fun h => h)

/-! ## Sample environments -/

/-- Fetch answers of a CSR that is approved from the start and whose
certificate appears on the third fetch. -/
def lateCertificate (i : Nat) : Except Err CertificateSigningRequest :=
  Except.ok
    { metadata := { name := "alice" },
      status :=
        { conditions := [{ type := "Approved", status := "True" }],
          certificate := if i < 2 then [] else [48, 130] } }

/-- Fetch answers of an approved CSR that never receives a certificate. -/
def neverCertificate (_ : Nat) : Except Err CertificateSigningRequest :=
  Except.ok
    { metadata := { name := "alice" },
      status := { conditions := [{ type := "Approved", status := "True" }], certificate := [] } }

/-- Fetch answers of a CSR that has a certificate and no condition. -/
def certificateWithoutApproval (_ : Nat) : Except Err CertificateSigningRequest :=
  Except.ok
    { metadata := { name := "alice" }, status := { conditions := [], certificate := [48, 130] } }

/-- Answers of a stateless client whose namespace lookup is forbidden. -/
def forbiddenLookup : Event → Option Err
  | Event.nsGet _ => some errForbidden
  | _ => none

/-- Answers of a stateless client that refuses to create the cluster role
binding `alice-editor`. -/
def refuseAliceEditor : Event → Option Err
  | Event.crbCreate crb => if crb.metadata.name = "alice-editor" then some errForbidden else none
  | _ => none

/-- Answers of a stateless client in which no namespace is there yet and the
namespace `teamB` cannot be created. -/
def refuseTeamB : Event → Option Err
  | Event.nsGet name => some (errNotFound "namespaces" name)
  | Event.nsCreate ns => if ns.metadata.name = "teamB" then some errForbidden else none
  | _ => none

/-! ## The batch as the specification words it -/

/-- Whether an event is a call on the API (not a sleep, not a log line). -/
def Event.isApiCall : Event → Bool
  | Event.sleep _ => false
  | Event.log _ _ _ => false
  | _ => true

/-- The API calls of a trace, in order. -/
def apiCalls (tr : List Event) : List Event :=
  tr.filter Event.isApiCall

/-- The one subject of a binding: a user carries a name only, any other kind
is a service account with name and namespace. -/
def specSubject (roleBindingType saNameSpace username : String) : Subject :=
  if roleBindingType = "User" then { kind := "User", name := username }
  else { kind := "ServiceAccount", name := username, nameSpace := saNameSpace }

/-- The namespaced binding of a user and a role: named `username-role`, with
the one subject and a role reference of kind `ClusterRole`. -/
def specRoleBinding (roleBindingType saNameSpace username ns cr : String) : RoleBinding :=
  { metadata := { name := username ++ "-" ++ cr, nameSpace := ns },
    subjects := [specSubject roleBindingType saNameSpace username],
    roleRef := { kind := "ClusterRole", name := cr } }

/-- The cluster-wide binding of a user and a role. -/
def specClusterRoleBinding (roleBindingType saNameSpace username cr : String) :
    ClusterRoleBinding :=
  { metadata := { name := username ++ "-" ++ cr },
    subjects := [specSubject roleBindingType saNameSpace username],
    roleRef := { kind := "ClusterRole", name := cr } }

/-- What a step does on a cluster whose calls succeed, in the words of the
specification, as the state it leaves and the calls it issues.  Ensuring a
namespace fetches it by name and, when the fetch does not find it, creates it
with no other metadata.  Recreating a binding looks the name up, deletes the
binding when the lookup finds one, and then creates the new binding. -/
def specStep (K : KubeClient σ) (roleBindingType saNameSpace username : String) :
    Step → σ → σ × List Event
  | Step.ensureNamespace ns, s =>
    match K.nsGet ns s with
    | (none, s1) => (s1, [Event.nsGet ns])
    | (some _, s1) =>
      ((K.nsCreate { metadata := { name := ns } } s1).2,
        [Event.nsGet ns, Event.nsCreate { metadata := { name := ns } }])
  | Step.recreateClusterRoleBinding cr, s =>
    match K.crbGet (username ++ "-" ++ cr) s with
    | (none, s1) =>
      ((K.crbCreate (specClusterRoleBinding roleBindingType saNameSpace username cr)
          (K.crbDelete (username ++ "-" ++ cr) s1).2).2,
        [Event.crbGet (username ++ "-" ++ cr), Event.crbDelete (username ++ "-" ++ cr),
          Event.crbCreate (specClusterRoleBinding roleBindingType saNameSpace username cr)])
    | (some _, s1) =>
      ((K.crbCreate (specClusterRoleBinding roleBindingType saNameSpace username cr) s1).2,
        [Event.crbGet (username ++ "-" ++ cr),
          Event.crbCreate (specClusterRoleBinding roleBindingType saNameSpace username cr)])
  | Step.recreateRoleBinding ns cr, s =>
    match K.rbGet ns (username ++ "-" ++ cr) s with
    | (none, s1) =>
      ((K.rbCreate ns (specRoleBinding roleBindingType saNameSpace username ns cr)
          (K.rbDelete ns (username ++ "-" ++ cr) s1).2).2,
        [Event.rbGet ns (username ++ "-" ++ cr), Event.rbDelete ns (username ++ "-" ++ cr),
          Event.rbCreate ns (specRoleBinding roleBindingType saNameSpace username ns cr)])
    | (some _, s1) =>
      ((K.rbCreate ns (specRoleBinding roleBindingType saNameSpace username ns cr) s1).2,
        [Event.rbGet ns (username ++ "-" ++ cr),
          Event.rbCreate ns (specRoleBinding roleBindingType saNameSpace username ns cr)])

/-- The steps of a batch done one after the other on a cluster whose calls
succeed: the state left and the calls issued. -/
def specRun (K : KubeClient σ) (roleBindingType saNameSpace username : String) :
    List Step → σ → σ × List Event
  | [], s => (s, [])
  | st :: rest, s =>
    ((specRun K roleBindingType saNameSpace username rest
        (specStep K roleBindingType saNameSpace username st s).1).1,
      (specStep K roleBindingType saNameSpace username st s).2 ++
        (specRun K roleBindingType saNameSpace username rest
          (specStep K roleBindingType saNameSpace username st s).1).2)

/-- Answers of a stateless client on an empty cluster: every lookup answers
not-found, every create and delete succeeds. -/
def nothingThere : Event → Option Err
  | Event.nsGet name => some (errNotFound "namespaces" name)
  | Event.rbGet _ name => some (errNotFound "rolebindings" name)
  | Event.crbGet name => some (errNotFound "clusterrolebindings" name)
  | _ => none

/-! ## Lookup failures in `createNsIfNotExist` -/

/-- A lookup error of `createNsIfNotExist` that is not a not-found error is
dropped: the method returns nil after the lookup alone. -/
theorem createNsIfNotExist_lookup_error (K : KubeClient σ) (nameSpace : String) (s s1 : σ)
    (e : Err) (hget : K.nsGet nameSpace s = (some e, s1)) (hnf : IsNotFound e = false) :
    createNsIfNotExist K nameSpace s = ⟨none, s1, [Event.nsGet nameSpace]⟩ := by
  simp [createNsIfNotExist, hget, hnf]

/-- C1 (evaluation at the failing input): with a namespace lookup that fails
with a Forbidden error, which is not a not-found error, `createNsIfNotExist`
issues the lookup only and returns nil instead of the error. -/
theorem createNsIfNotExist_drops_forbidden :
    ((stubClient forbiddenLookup (fun _ => Except.error errForbidden)).nsGet "prod" ()).1
      = some errForbidden ∧
    IsNotFound errForbidden = false ∧
    createNsIfNotExist (stubClient forbiddenLookup (fun _ => Except.error errForbidden)) "prod" ()
      = ⟨none, (), [Event.nsGet "prod"]⟩ := by
  refine ⟨rfl, by decide, rfl⟩

/-! ## The object a recreate submits -/

/-- The shape of the subject list: one `User` subject without namespace for
the kind `User`, one `ServiceAccount` subject in `saNameSpace` otherwise. -/
theorem subjectsFor_eq (roleBindingType username saNameSpace : String) :
    subjectsFor roleBindingType username saNameSpace =
      [if roleBindingType = "User" then
          ({ kind := "User", apiGroup := "", name := username, nameSpace := "" } : Subject)
        else { kind := "ServiceAccount", apiGroup := "", name := username, nameSpace := saNameSpace }] := by
  unfold subjectsFor
  split <;> simp_all [UserKind, ServiceAccountKind]

/-- The runs of `reCreateRoleBinding`: stopped by the lookup, stopped by the
delete, or ended by the create of the one binding it builds. -/
theorem reCreateRoleBinding_cases (K : KubeClient σ)
    (roleBindingType name username nameSpace roleRef saNameSpace : String) (s : σ) :
    let rb : RoleBinding :=
      { metadata := { name := name, nameSpace := nameSpace },
        subjects := subjectsFor roleBindingType username saNameSpace,
        roleRef := { kind := "ClusterRole", name := roleRef } }
    let r := reCreateRoleBinding K roleBindingType name username nameSpace roleRef saNameSpace s
    (r.ret ≠ none ∧ r.trace = [Event.rbGet nameSpace name]) ∨
    (r.ret ≠ none ∧ r.trace = [Event.rbGet nameSpace name, Event.rbDelete nameSpace name]) ∨
    (r.trace = [Event.rbGet nameSpace name, Event.rbCreate nameSpace rb]) ∨
    (r.trace = [Event.rbGet nameSpace name, Event.rbDelete nameSpace name,
      Event.rbCreate nameSpace rb]) := by
  intro rb r
  simp only [r, rb, reCreateRoleBinding]
  split
  · split
    · simp
    · split <;> simp
  · split
    · simp
    · split <;> simp

/-- The runs of `reCreateClusterRoleBinding`: stopped by the lookup, stopped by
the delete, or ended by the create of the one binding it builds. -/
theorem reCreateClusterRoleBinding_cases (K : KubeClient σ)
    (roleBindingType name username roleRef saNameSpace : String) (s : σ) :
    let crb : ClusterRoleBinding :=
      { metadata := { name := name, nameSpace := "" },
        subjects := subjectsFor roleBindingType username saNameSpace,
        roleRef := { kind := "ClusterRole", name := roleRef } }
    let r := reCreateClusterRoleBinding K roleBindingType name username roleRef saNameSpace s
    (r.ret ≠ none ∧ r.trace = [Event.crbGet name]) ∨
    (r.ret ≠ none ∧ r.trace = [Event.crbGet name, Event.crbDelete name]) ∨
    (r.trace = [Event.crbGet name, Event.crbCreate crb]) ∨
    (r.trace = [Event.crbGet name, Event.crbDelete name, Event.crbCreate crb]) := by
  intro crb r
  simp only [r, crb, reCreateClusterRoleBinding]
  split
  · split
    · simp
    · split <;> simp
  · split
    · simp
    · split <;> simp

/-- C7: whatever the client answers, the only object `reCreateRoleBinding`
(likewise `reCreateClusterRoleBinding`) ever submits for creation carries
exactly one subject, the user `username` without namespace when the kind is
`User` and otherwise the service account `username` in `saNameSpace`, and the
role reference of kind `ClusterRole` named `roleRef`; it submits at most one,
and exactly that one whenever it returns nil. -/
theorem recreate_submits_single_subject (K : KubeClient σ)
    (roleBindingType name username nameSpace roleRef saNameSpace : String) (s : σ) :
    let subject : Subject :=
      if roleBindingType = "User" then
        { kind := "User", apiGroup := "", name := username, nameSpace := "" }
      else { kind := "ServiceAccount", apiGroup := "", name := username, nameSpace := saNameSpace }
    let rb : RoleBinding :=
      { metadata := { name := name, nameSpace := nameSpace },
        subjects := [subject],
        roleRef := { apiGroup := "", kind := "ClusterRole", name := roleRef } }
    let crb : ClusterRoleBinding :=
      { metadata := { name := name, nameSpace := "" },
        subjects := [subject],
        roleRef := { apiGroup := "", kind := "ClusterRole", name := roleRef } }
    let r := reCreateRoleBinding K roleBindingType name username nameSpace roleRef saNameSpace s
    let c := reCreateClusterRoleBinding K roleBindingType name username roleRef saNameSpace s
    (rbCreates r.trace = [] ∨ rbCreates r.trace = [(nameSpace, rb)]) ∧
    (r.ret = none → rbCreates r.trace = [(nameSpace, rb)]) ∧
    (crbCreates c.trace = [] ∨ crbCreates c.trace = [crb]) ∧
    (c.ret = none → crbCreates c.trace = [crb]) := by
  intro subject rb crb r c
  have hr := reCreateRoleBinding_cases K roleBindingType name username nameSpace roleRef saNameSpace s
  have hc := reCreateClusterRoleBinding_cases K roleBindingType name username roleRef saNameSpace s
  simp only [subjectsFor_eq] at hr hc
  refine ⟨?_, ?_, ?_, ?_⟩
  · rcases hr with h | h | h | h
    · left; simp only [r, h.2, rbCreates]
    · left; simp only [r, h.2, rbCreates]
    · right; simp only [r, h, rbCreates, rb, subject]
    · right; simp only [r, h, rbCreates, rb, subject]
  · intro hnone
    rcases hr with h | h | h | h
    · exact absurd hnone h.1
    · exact absurd hnone h.1
    · simp only [r, h, rbCreates, rb, subject]
    · simp only [r, h, rbCreates, rb, subject]
  · rcases hc with h | h | h | h
    · left; simp only [c, h.2, crbCreates]
    · left; simp only [c, h.2, crbCreates]
    · right; simp only [c, h, crbCreates, crb, subject]
    · right; simp only [c, h, crbCreates, crb, subject]
  · intro hnone
    rcases hc with h | h | h | h
    · exact absurd hnone h.1
    · exact absurd hnone h.1
    · simp only [c, h, crbCreates, crb, subject]
    · simp only [c, h, crbCreates, crb, subject]

/-! ## The in-memory cluster -/

/-- After the entries satisfying `p` are filtered out, none satisfies `p`. -/
theorem any_filter_not {α : Type} (p : α → Bool) (l : List α) :
    (l.filter (fun x => !p x)).any p = false := by
  induction l with
  | nil => rfl
  | cons a l ih =>
    by_cases h : p a = true
    · simp [List.filter_cons, h, ih]
    · simp only [List.filter_cons, h, Bool.not_false, ite_true, List.any_cons, Bool.false_or, ih,
        Bool.not_eq_true, Bool.not_true]

/-- Filtering out the entries satisfying `p` changes nothing when none does. -/
theorem filter_not_eq_self {α : Type} (p : α → Bool) (l : List α) (h : l.any p = false) :
    l.filter (fun x => !p x) = l := by
  rw [List.filter_eq_self]
  intro a ha
  by_cases hp : p a = true
  · have : l.any p = true := List.any_eq_true.mpr ⟨a, ha, hp⟩
    simp [this] at h
  · simpa using hp

/-- The entries with a key, after the key was cleared and one entry with the
key appended, are that entry alone; clearing the key again gives back the
cleared list. -/
theorem filter_cleared_append {α : Type} (p : α → Bool) (l : List α) (a : α) (ha : p a = true) :
    (l.filter (fun x => !p x) ++ [a]).filter p = [a] ∧
    (l.filter (fun x => !p x) ++ [a]).filter (fun x => !p x) = l.filter (fun x => !p x) ∧
    (l.filter (fun x => !p x) ++ [a]).any p = true := by
  refine ⟨?_, ?_, ?_⟩
  · rw [List.filter_append, List.filter_filter]
    simp [ha]
  · rw [List.filter_append, List.filter_filter]
    simp [ha]
  · simp [ha]

/-- The lookup of a role binding on the in-memory cluster. -/
theorem memClient_rbGet (nameSpace name : String) (s : Cluster) :
    memClient.rbGet nameSpace name s =
      if s.roleBindings.any (RoleBinding.hasKey nameSpace name) then (none, s)
      else (some (errNotFound "rolebindings" name), s) := rfl

/-- The delete of a role binding on the in-memory cluster. -/
theorem memClient_rbDelete (nameSpace name : String) (s : Cluster) :
    memClient.rbDelete nameSpace name s =
      if s.roleBindings.any (RoleBinding.hasKey nameSpace name) then
        (none, { s with
          roleBindings := s.roleBindings.filter (fun rb => !RoleBinding.hasKey nameSpace name rb) })
      else (some (errNotFound "rolebindings" name), s) := rfl

/-- The create of a role binding on the in-memory cluster. -/
theorem memClient_rbCreate (nameSpace : String) (rb : RoleBinding) (s : Cluster) :
    memClient.rbCreate nameSpace rb s =
      if rb.metadata.nameSpace ≠ nameSpace then (some errBadRequest, s)
      else if s.roleBindings.any (RoleBinding.hasKey nameSpace rb.metadata.name) then
        (some (errAlreadyExists "rolebindings" rb.metadata.name), s)
      else (none, { s with roleBindings := s.roleBindings ++ [rb] }) := rfl

/-- The lookup of a cluster role binding on the in-memory cluster. -/
theorem memClient_crbGet (name : String) (s : Cluster) :
    memClient.crbGet name s =
      if s.clusterRoleBindings.any (ClusterRoleBinding.hasKey name) then (none, s)
      else (some (errNotFound "clusterrolebindings" name), s) := rfl

/-- The delete of a cluster role binding on the in-memory cluster. -/
theorem memClient_crbDelete (name : String) (s : Cluster) :
    memClient.crbDelete name s =
      if s.clusterRoleBindings.any (ClusterRoleBinding.hasKey name) then
        (none, { s with
          clusterRoleBindings :=
            s.clusterRoleBindings.filter (fun crb => !ClusterRoleBinding.hasKey name crb) })
      else (some (errNotFound "clusterrolebindings" name), s) := rfl

/-- The create of a cluster role binding on the in-memory cluster. -/
theorem memClient_crbCreate (crb : ClusterRoleBinding) (s : Cluster) :
    memClient.crbCreate crb s =
      if s.clusterRoleBindings.any (ClusterRoleBinding.hasKey crb.metadata.name) then
        (some (errAlreadyExists "clusterrolebindings" crb.metadata.name), s)
      else (none, { s with clusterRoleBindings := s.clusterRoleBindings ++ [crb] }) := rfl

/-- The error of an absent object is a not-found error. -/
theorem isNotFound_errNotFound (resource name : String) :
    IsNotFound (errNotFound resource name) = true := by
  simp [errNotFound, IsNotFound]

/-- On the in-memory cluster `reCreateRoleBinding` always succeeds: it clears
the key and appends the new binding. -/
theorem reCreateRoleBinding_mem (roleBindingType name username nameSpace roleRef saNameSpace : String)
    (s : Cluster) :
    reCreateRoleBinding memClient roleBindingType name username nameSpace roleRef saNameSpace s =
      ⟨none,
        { s with roleBindings :=
            s.roleBindings.filter (fun b => !RoleBinding.hasKey nameSpace name b) ++
              [{ metadata := { name := name, nameSpace := nameSpace },
                 subjects := subjectsFor roleBindingType username saNameSpace,
                 roleRef := { kind := "ClusterRole", name := roleRef } }] },
        if s.roleBindings.any (RoleBinding.hasKey nameSpace name) then
          [Event.rbGet nameSpace name, Event.rbDelete nameSpace name,
            Event.rbCreate nameSpace
              { metadata := { name := name, nameSpace := nameSpace },
                subjects := subjectsFor roleBindingType username saNameSpace,
                roleRef := { kind := "ClusterRole", name := roleRef } }]
        else
          [Event.rbGet nameSpace name,
            Event.rbCreate nameSpace
              { metadata := { name := name, nameSpace := nameSpace },
                subjects := subjectsFor roleBindingType username saNameSpace,
                roleRef := { kind := "ClusterRole", name := roleRef } }]⟩ := by
  by_cases hfound : s.roleBindings.any (RoleBinding.hasKey nameSpace name) = true
  · have hno := any_filter_not (RoleBinding.hasKey nameSpace name) s.roleBindings
    simp only [reCreateRoleBinding, memClient_rbGet, memClient_rbDelete, memClient_rbCreate,
      hfound, hno, ite_true, ne_eq, not_true_eq_false, ite_false, Bool.false_eq_true,
      List.cons_append, List.nil_append]
  · have hfound2 : s.roleBindings.any (RoleBinding.hasKey nameSpace name) = false := by
      simpa using hfound
    have hself := filter_not_eq_self _ _ hfound2
    simp only [reCreateRoleBinding, memClient_rbGet, memClient_rbDelete, memClient_rbCreate,
      hfound2, hself, isNotFound_errNotFound, ite_true, ne_eq, not_true_eq_false, ite_false,
      Bool.false_eq_true, Bool.not_true, List.cons_append, List.nil_append]

/-- On the in-memory cluster `reCreateClusterRoleBinding` always succeeds: it
clears the name and appends the new binding. -/
theorem reCreateClusterRoleBinding_mem (roleBindingType name username roleRef saNameSpace : String)
    (s : Cluster) :
    reCreateClusterRoleBinding memClient roleBindingType name username roleRef saNameSpace s =
      ⟨none,
        { s with clusterRoleBindings :=
            s.clusterRoleBindings.filter (fun b => !ClusterRoleBinding.hasKey name b) ++
              [{ metadata := { name := name },
                 subjects := subjectsFor roleBindingType username saNameSpace,
                 roleRef := { kind := "ClusterRole", name := roleRef } }] },
        if s.clusterRoleBindings.any (ClusterRoleBinding.hasKey name) then
          [Event.crbGet name, Event.crbDelete name,
            Event.crbCreate
              { metadata := { name := name },
                subjects := subjectsFor roleBindingType username saNameSpace,
                roleRef := { kind := "ClusterRole", name := roleRef } }]
        else
          [Event.crbGet name,
            Event.crbCreate
              { metadata := { name := name },
                subjects := subjectsFor roleBindingType username saNameSpace,
                roleRef := { kind := "ClusterRole", name := roleRef } }]⟩ := by
  by_cases hfound : s.clusterRoleBindings.any (ClusterRoleBinding.hasKey name) = true
  · have hno := any_filter_not (ClusterRoleBinding.hasKey name) s.clusterRoleBindings
    simp only [reCreateClusterRoleBinding, memClient_crbGet, memClient_crbDelete,
      memClient_crbCreate, hfound, hno, ite_true, ite_false, Bool.false_eq_true,
      List.cons_append, List.nil_append]
  · have hfound2 : s.clusterRoleBindings.any (ClusterRoleBinding.hasKey name) = false := by
      simpa using hfound
    have hself := filter_not_eq_self _ _ hfound2
    simp only [reCreateClusterRoleBinding, memClient_crbGet, memClient_crbDelete,
      memClient_crbCreate, hfound2, hself, isNotFound_errNotFound, ite_true, ite_false,
      Bool.false_eq_true, Bool.not_true, List.cons_append, List.nil_append]

/-- C6: on the in-memory cluster, from every state and for all arguments,
`reCreateRoleBinding` (likewise `reCreateClusterRoleBinding`) called twice in
a row succeeds both times and leaves the state of a single call, in which the
bindings stored under the name (in the namespace) are exactly one, holding the
one subject built from the arguments and the given role reference. -/
theorem recreate_twice_eq_once
    (roleBindingType name username nameSpace roleRef saNameSpace : String) (s : Cluster) :
    let subject : Subject :=
      if roleBindingType = "User" then
        { kind := "User", apiGroup := "", name := username, nameSpace := "" }
      else { kind := "ServiceAccount", apiGroup := "", name := username, nameSpace := saNameSpace }
    let r1 := reCreateRoleBinding memClient roleBindingType name username nameSpace roleRef saNameSpace s
    let r2 := reCreateRoleBinding memClient roleBindingType name username nameSpace roleRef saNameSpace
      r1.cluster
    let c1 := reCreateClusterRoleBinding memClient roleBindingType name username roleRef saNameSpace s
    let c2 := reCreateClusterRoleBinding memClient roleBindingType name username roleRef saNameSpace
      c1.cluster
    (r1.ret = none ∧ r2.ret = none ∧ r2.cluster = r1.cluster ∧
      r2.cluster.roleBindings.filter (RoleBinding.hasKey nameSpace name) =
        [{ metadata := { name := name, nameSpace := nameSpace },
           subjects := [subject],
           roleRef := { apiGroup := "", kind := "ClusterRole", name := roleRef } }]) ∧
    (c1.ret = none ∧ c2.ret = none ∧ c2.cluster = c1.cluster ∧
      c2.cluster.clusterRoleBindings.filter (ClusterRoleBinding.hasKey name) =
        [{ metadata := { name := name, nameSpace := "" },
           subjects := [subject],
           roleRef := { apiGroup := "", kind := "ClusterRole", name := roleRef } }]) := by
  intro subject r1 r2 c1 c2
  have hkey : RoleBinding.hasKey nameSpace name
      { metadata := { name := name, nameSpace := nameSpace },
        subjects := subjectsFor roleBindingType username saNameSpace,
        roleRef := { kind := "ClusterRole", name := roleRef } } = true := by
    simp [RoleBinding.hasKey]
  have hckey : ClusterRoleBinding.hasKey name
      { metadata := { name := name },
        subjects := subjectsFor roleBindingType username saNameSpace,
        roleRef := { kind := "ClusterRole", name := roleRef } } = true := by
    simp [ClusterRoleBinding.hasKey]
  have hr := filter_cleared_append (RoleBinding.hasKey nameSpace name) s.roleBindings _ hkey
  have hc := filter_cleared_append (ClusterRoleBinding.hasKey name) s.clusterRoleBindings _ hckey
  simp only [subjectsFor_eq] at hr hc
  refine ⟨?_, ?_⟩
  · simp only [r2, r1, reCreateRoleBinding_mem, hr.1, hr.2.1, subjectsFor_eq, subject, true_and]
  · simp only [c2, c1, reCreateClusterRoleBinding_mem, hc.1, hc.2.1, subjectsFor_eq, subject,
      true_and]

/-- C10: the pairs `("a-b", "c")` and `("a", "b-c")` differ and share the
binding name `a-b-c`; on the in-memory cluster, from every state, generating
the cluster-wide binding of user `a-b` for role `c` and then that of user `a`
for role `b-c` succeeds twice, the second run deletes `a-b-c`, and the one
binding left under that name has the subject `a` and the role reference
`b-c`. -/
theorem bindingName_not_injective_overwrites :
    (("a-b", "c") : String × String) ≠ ("a", "b-c") ∧
    bindingName "a-b" "c" = "a-b-c" ∧ bindingName "a" "b-c" = "a-b-c" ∧
    ∀ (sa1 sa2 : String) (s : Cluster),
      let r1 := GenerateBinding memClient "User" sa1 "a-b" ["c"] [] s
      let r2 := GenerateBinding memClient "User" sa2 "a" ["b-c"] [] r1.cluster
      r1.ret = none ∧ r2.ret = none ∧
      r1.cluster.clusterRoleBindings.filter (ClusterRoleBinding.hasKey "a-b-c") =
        [{ metadata := { name := "a-b-c", nameSpace := "" },
           subjects := [{ kind := "User", apiGroup := "", name := "a-b", nameSpace := "" }],
           roleRef := { apiGroup := "", kind := "ClusterRole", name := "c" } }] ∧
      Event.crbDelete "a-b-c" ∈ r2.trace ∧
      r2.cluster.clusterRoleBindings.filter (ClusterRoleBinding.hasKey "a-b-c") =
        [{ metadata := { name := "a-b-c", nameSpace := "" },
           subjects := [{ kind := "User", apiGroup := "", name := "a", nameSpace := "" }],
           roleRef := { apiGroup := "", kind := "ClusterRole", name := "b-c" } }] := by
  refine ⟨by decide, by decide, by decide, ?_⟩
  intro sa1 sa2 s r1 r2
  have hn1 : bindingName "a-b" "c" = "a-b-c" := by decide
  have hn2 : bindingName "a" "b-c" = "a-b-c" := by decide
  have hk1 : ClusterRoleBinding.hasKey "a-b-c"
      { metadata := { name := "a-b-c" },
        subjects := subjectsFor "User" "a-b" sa1,
        roleRef := { kind := "ClusterRole", name := "c" } } = true := by
    simp [ClusterRoleBinding.hasKey]
  have hk2 : ClusterRoleBinding.hasKey "a-b-c"
      { metadata := { name := "a-b-c" },
        subjects := subjectsFor "User" "a" sa2,
        roleRef := { kind := "ClusterRole", name := "b-c" } } = true := by
    simp [ClusterRoleBinding.hasKey]
  have h1 := filter_cleared_append (ClusterRoleBinding.hasKey "a-b-c") s.clusterRoleBindings _ hk1
  have h2 := filter_cleared_append (ClusterRoleBinding.hasKey "a-b-c") s.clusterRoleBindings _ hk2
  have hr1 : r1 = ⟨none,
      { s with clusterRoleBindings :=
          s.clusterRoleBindings.filter (fun b => !ClusterRoleBinding.hasKey "a-b-c" b) ++
            [{ metadata := { name := "a-b-c" },
               subjects := subjectsFor "User" "a-b" sa1,
               roleRef := { kind := "ClusterRole", name := "c" } }] }, r1.trace⟩ := by
    simp only [r1, GenerateBinding, clusterRoleLoop, hn1, reCreateClusterRoleBinding_mem,
      List.length_nil, ite_true]
  have hr2 : r2.ret = none ∧ r2.cluster =
      { s with clusterRoleBindings :=
          s.clusterRoleBindings.filter (fun b => !ClusterRoleBinding.hasKey "a-b-c" b) ++
            [{ metadata := { name := "a-b-c" },
               subjects := subjectsFor "User" "a" sa2,
               roleRef := { kind := "ClusterRole", name := "b-c" } }] } ∧
      Event.crbDelete "a-b-c" ∈ r2.trace := by
    simp only [r2]
    rw [hr1]
    simp only [GenerateBinding, clusterRoleLoop, hn2, reCreateClusterRoleBinding_mem,
      List.length_nil, ite_true, h1.2.1, h1.2.2, true_and]
    simp
  refine ⟨?_, hr2.1, ?_, hr2.2.2, ?_⟩
  · rw [hr1]
  · rw [hr1]
    dsimp only
    rw [h1.1]
    simp only [subjectsFor_eq, ite_true]
  · rw [hr2.2.1]
    dsimp only
    rw [h2.1]
    simp only [subjectsFor_eq, ite_true]

/-! ## The bounded wait for a CSR -/

/-- The condition scan reaches its `return` exactly when a condition of type
`Approved` is in the list. -/
theorem approvedIn_iff (cs : List CertificateSigningRequestCondition) :
    approvedIn cs = true ↔ ∃ c ∈ cs, c.type = "Approved" := by
  induction cs with
  | nil => simp [approvedIn]
  | cons c rest ih =>
    by_cases h : c.type = "Approved"
    · simp [approvedIn, CertificateApproved, h]
    · simp [approvedIn, CertificateApproved, h, ih]

/-- An iteration whose fetch is ready returns the fetched CSR at once. -/
theorem waitLoop_ready (K : KubeClient σ) (name : String) (n : Nat) (s : σ)
    (h : Ready (K.csrGet name s).1) :
    ∃ csr, (K.csrGet name s).1 = Except.ok csr ∧
      waitLoop K name (n + 1) s = ⟨(some csr, none), (K.csrGet name s).2, [Event.csrGet name]⟩ := by
  rcases hget : K.csrGet name s with ⟨res, s1⟩
  rw [hget] at h
  cases res with
  | error e => exact absurd h (by simp [Ready])
  | ok csr =>
    refine ⟨csr, rfl, ?_⟩
    simp only [Ready] at h
    have hcert : ¬ csr.status.certificate.length = 0 := by
      simpa [List.length_eq_zero] using h.1
    have happ : approvedIn csr.status.conditions = true := (approvedIn_iff _).mpr h.2
    simp only [waitLoop, hget, hcert, happ, ite_true, ite_false]

/-- An iteration whose fetch is not ready goes on with the next one, having
made one fetch. -/
theorem waitLoop_not_ready (K : KubeClient σ) (name : String) (n : Nat) (s : σ)
    (h : ¬ Ready (K.csrGet name s).1) :
    (waitLoop K name (n + 1) s).ret = (waitLoop K name n (K.csrGet name s).2).ret ∧
    fetchCount (waitLoop K name (n + 1) s).trace =
      fetchCount (waitLoop K name n (K.csrGet name s).2).trace + 1 := by
  rcases hget : K.csrGet name s with ⟨res, s1⟩
  rw [hget] at h
  cases res with
  | error e =>
    simp only [waitLoop, hget, fetchCount]
    simp [List.filter_cons, Event.isFetch]
  | ok csr =>
    by_cases hcert : csr.status.certificate.length = 0
    · simp only [waitLoop, hget, hcert, ite_true, fetchCount]
      simp [List.filter_cons, Event.isFetch]
    · have happ : ¬ approvedIn csr.status.conditions = true := by
        intro happ
        apply h
        refine ⟨?_, (approvedIn_iff _).mp happ⟩
        intro hnil
        exact hcert (by simp [hnil])
      simp only [waitLoop, hget, hcert, happ, ite_false, fetchCount]
      simp [List.filter_cons, Event.isFetch]

/-- With no ready answer among the first `n` fetches, `n` iterations make `n`
fetches and end in the timeout error. -/
theorem waitLoop_timeout (K : KubeClient σ) (name : String) (n : Nat) (s : σ)
    (h : ∀ i, i < n → ¬ Ready (fetchResult K name s i)) :
    (waitLoop K name n s).ret = (none, some (Err.errorf "wait csr to be approved timeout")) ∧
    fetchCount (waitLoop K name n s).trace = n := by
  induction n generalizing s with
  | zero => simp [waitLoop, fetchCount]
  | succ n ih =>
    have h0 : ¬ Ready (K.csrGet name s).1 := h 0 (Nat.succ_pos n)
    have hrest : ∀ i, i < n → ¬ Ready (fetchResult K name (K.csrGet name s).2 i) :=
      fun i hi => h (i + 1) (Nat.succ_lt_succ hi)
    have hstep := waitLoop_not_ready K name n s h0
    have hih := ih (K.csrGet name s).2 hrest
    exact ⟨hstep.1.trans hih.1, by rw [hstep.2, hih.2]⟩

/-- With the first ready answer at fetch `i` (from zero) and `i` below the
number of iterations, the loop returns the CSR of that fetch after `i + 1`
fetches. -/
theorem waitLoop_first_ready (K : KubeClient σ) (name : String) (n : Nat) (s : σ) (i : Nat)
    (hi : i < n) (hready : Ready (fetchResult K name s i))
    (hfirst : ∀ j, j < i → ¬ Ready (fetchResult K name s j)) :
    ∃ csr, fetchResult K name s i = Except.ok csr ∧
      (waitLoop K name n s).ret = (some csr, none) ∧
      fetchCount (waitLoop K name n s).trace = i + 1 := by
  induction n generalizing s i with
  | zero => exact absurd hi (Nat.not_lt_zero i)
  | succ n ih =>
    cases i with
    | zero =>
      obtain ⟨csr, hcsr, hrun⟩ := waitLoop_ready K name n s hready
      refine ⟨csr, hcsr, ?_, ?_⟩
      · rw [hrun]
      · rw [hrun]
        simp [fetchCount, Event.isFetch]
    | succ i =>
      have h0 : ¬ Ready (K.csrGet name s).1 := hfirst 0 (Nat.succ_pos i)
      have hstep := waitLoop_not_ready K name n s h0
      obtain ⟨csr, hcsr, hret, hcount⟩ := ih (K.csrGet name s).2 i (Nat.lt_of_succ_lt_succ hi)
        hready (fun j hj => hfirst (j + 1) (Nat.succ_lt_succ hj))
      exact ⟨csr, hcsr, hstep.1.trans hret, by rw [hstep.2, hcount]⟩

/-- C4: for every client and start state, hence every sequence of fetch
answers, `WaitForK8sCsrReady` returns a nil error exactly when one of the
first five fetches is ready (no error, certificate not empty, a condition of
type `Approved`); with the earliest ready fetch at position `i` (from zero) it
returns that CSR and nil after `i + 1` fetches; with none it returns a nil CSR
and the timeout error after five fetches. -/
theorem waitForK8sCsrReady_spec (K : KubeClient σ) (name : String) (s : σ) :
    let r := WaitForK8sCsrReady K name s
    (r.ret.2 = none ↔ ∃ i, i < 5 ∧ Ready (fetchResult K name s i)) ∧
    (∀ i, i < 5 → Ready (fetchResult K name s i) →
      (∀ j, j < i → ¬ Ready (fetchResult K name s j)) →
      ∃ csr, fetchResult K name s i = Except.ok csr ∧ r.ret = (some csr, none) ∧
        fetchCount r.trace = i + 1) ∧
    ((∀ i, i < 5 → ¬ Ready (fetchResult K name s i)) →
      r.ret = (none, some (Err.errorf "wait csr to be approved timeout")) ∧
        fetchCount r.trace = 5) := by
  intro r
  have hsucc : ∀ i, i < 5 → Ready (fetchResult K name s i) →
      (∀ j, j < i → ¬ Ready (fetchResult K name s j)) →
      ∃ csr, fetchResult K name s i = Except.ok csr ∧ r.ret = (some csr, none) ∧
        fetchCount r.trace = i + 1 :=
    fun i hi hready hfirst => waitLoop_first_ready K name 5 s i hi hready hfirst
  have hfail : (∀ i, i < 5 → ¬ Ready (fetchResult K name s i)) →
      r.ret = (none, some (Err.errorf "wait csr to be approved timeout")) ∧
        fetchCount r.trace = 5 :=
    fun h => waitLoop_timeout K name 5 s h
  refine ⟨⟨?_, ?_⟩, hsucc, hfail⟩
  · intro hnil
    by_contra hno
    have hall : ∀ i, i < 5 → ¬ Ready (fetchResult K name s i) :=
      fun i hi hr => hno ⟨i, hi, hr⟩
    rw [(hfail hall).1] at hnil
    simp at hnil
  · intro hex
    classical
    have hfound := Nat.find_spec hex
    have hmin : ∀ j, j < Nat.find hex → ¬ Ready (fetchResult K name s j) := by
      intro j hj hr
      exact Nat.find_min hex hj ⟨Nat.lt_trans hj hfound.1, hr⟩
    obtain ⟨csr, _, hret, _⟩ := hsucc (Nat.find hex) hfound.1 hfound.2 hmin
    rw [hret]

/-- C4 (the two sample runs): a CSR approved from the start whose certificate
appears on the third fetch is returned after exactly three fetches, the first
two not being ready; a CSR that never receives a certificate ends in the
timeout error after exactly five fetches. -/
theorem waitForK8sCsrReady_spec_witness :
    (¬ Ready (fetchResult (pollClient lateCertificate) "alice" 0 0) ∧
      ¬ Ready (fetchResult (pollClient lateCertificate) "alice" 0 1) ∧
      ∃ csr, fetchResult (pollClient lateCertificate) "alice" 0 2 = Except.ok csr ∧
        (WaitForK8sCsrReady (pollClient lateCertificate) "alice" 0).ret = (some csr, none) ∧
        fetchCount (WaitForK8sCsrReady (pollClient lateCertificate) "alice" 0).trace = 2 + 1) ∧
    ((WaitForK8sCsrReady (pollClient neverCertificate) "alice" 0).ret
        = (none, some (Err.errorf "wait csr to be approved timeout")) ∧
      fetchCount (WaitForK8sCsrReady (pollClient neverCertificate) "alice" 0).trace = 5) :=
  ⟨⟨by decide, by decide,
      (waitForK8sCsrReady_spec (pollClient lateCertificate) "alice" 0).2.1 2 (by decide)
        (by decide) (by decide)⟩,
    (waitForK8sCsrReady_spec (pollClient neverCertificate) "alice" 0).2.2 (by decide)⟩

/-- C9 (evaluation at the failing input): when every fetch returns a CSR that
has a certificate and no `Approved` condition, the five fetches follow one
another with no sleep in between, and the wait ends in the timeout error. -/
theorem waitForK8sCsrReady_no_sleep_without_approval :
    (WaitForK8sCsrReady (pollClient certificateWithoutApproval) "alice" 0).trace =
      [Event.csrGet "alice", Event.csrGet "alice", Event.csrGet "alice", Event.csrGet "alice",
        Event.csrGet "alice"] ∧
    (WaitForK8sCsrReady (pollClient certificateWithoutApproval) "alice" 0).ret =
      (none, some (Err.errorf "wait csr to be approved timeout")) := by
  refine ⟨rfl, rfl⟩

/-- The sibling paths of the wait do sleep: when every fetch returns a CSR
without certificate, each of the five fetches is followed by a sleep of one
second. -/
theorem waitForK8sCsrReady_sleeps_without_certificate :
    (WaitForK8sCsrReady (pollClient neverCertificate) "alice" 0).trace =
      [Event.csrGet "alice", Event.sleep 1000000000, Event.csrGet "alice", Event.sleep 1000000000,
        Event.csrGet "alice", Event.sleep 1000000000, Event.csrGet "alice", Event.sleep 1000000000,
        Event.csrGet "alice", Event.sleep 1000000000] := by
  rfl

/-! ## Submitting a CSR -/

/-- C8: `ReCreateK8sCSR` first deletes the CSR named `cn`; when the delete
fails with an error that is not a not-found error it returns that error and
creates nothing; otherwise it issues exactly one create, of the CSR named `cn`
with the bytes of `csrStr` as request, the usage `client auth` alone and the
kube-apiserver client signer, and returns the error of that create (nil when
there is none). -/
theorem reCreateK8sCSR_spec (K : KubeClient σ) (cn csrStr : String) (s : σ) :
    let csr : CertificateSigningRequest :=
      { metadata := { name := cn, nameSpace := "" },
        spec :=
          { request := csrStr.toUTF8.data.toList,
            signerName := "kubernetes.io/kube-apiserver-client",
            usages := ["client auth"] },
        status := { conditions := [], certificate := [] } }
    let d := K.csrDelete cn s
    let r := ReCreateK8sCSR K cn csrStr s
    (∃ rest, r.trace = Event.csrDelete cn :: rest) ∧
    (∀ e, d.1 = some e → IsNotFound e = false →
      r.ret = some e ∧ r.cluster = d.2 ∧ r.trace = [Event.csrDelete cn]) ∧
    ((d.1 = none ∨ ∃ e, d.1 = some e ∧ IsNotFound e = true) →
      r.trace = [Event.csrDelete cn, Event.csrCreate csr] ∧
      r.ret = (K.csrCreate csr d.2).1 ∧ r.cluster = (K.csrCreate csr d.2).2) := by
  intro csr d r
  simp only [r, d, csr, ReCreateK8sCSR, UsageClientAuth, KubeAPIServerClientSignerName]
  split
  · split
    · simp_all
    · split <;> simp_all
  · split <;> simp_all

/-- C8 (sample run): on the client whose calls all succeed, the CSR of
`alice` is deleted, then created, and the method returns nil. -/
theorem reCreateK8sCSR_spec_witness :
    ((okClient.csrDelete "alice" ()).1 = none ∨
      ∃ e, (okClient.csrDelete "alice" ()).1 = some e ∧ IsNotFound e = true) ∧
    (ReCreateK8sCSR okClient "alice" "REQ" ()).trace =
      [Event.csrDelete "alice",
        Event.csrCreate
          { metadata := { name := "alice", nameSpace := "" },
            spec :=
              { request := "REQ".toUTF8.data.toList,
                signerName := "kubernetes.io/kube-apiserver-client",
                usages := ["client auth"] },
            status := { conditions := [], certificate := [] } }] ∧
    (ReCreateK8sCSR okClient "alice" "REQ" ()).ret = none :=
  ⟨Or.inl rfl,
    ((reCreateK8sCSR_spec okClient "alice" "REQ" ()).2.2 (Or.inl rfl)).1,
    ((reCreateK8sCSR_spec okClient "alice" "REQ" ()).2.2 (Or.inl rfl)).2.1⟩

/-- C7 (sample run): on the client whose calls all succeed, recreating the
binding of the service account `svc1` of namespace `infra` in `teamA` returns
nil and submits one binding whose one subject lies in `infra`, not in
`teamA`. -/
theorem recreate_submits_single_subject_witness :
    (reCreateRoleBinding okClient "ServiceAccount" "svc1-viewer" "svc1" "teamA" "viewer" "infra"
      ()).ret = none ∧
    rbCreates (reCreateRoleBinding okClient "ServiceAccount" "svc1-viewer" "svc1" "teamA" "viewer"
      "infra" ()).trace =
      [("teamA",
        { metadata := { name := "svc1-viewer", nameSpace := "teamA" },
          subjects := [{ kind := "ServiceAccount", apiGroup := "", name := "svc1",
                         nameSpace := "infra" }],
          roleRef := { apiGroup := "", kind := "ClusterRole", name := "viewer" } })] ∧
    (reCreateClusterRoleBinding okClient "User" "alice-viewer" "alice" "viewer" "" ()).ret = none ∧
    crbCreates (reCreateClusterRoleBinding okClient "User" "alice-viewer" "alice" "viewer" ""
      ()).trace =
      [{ metadata := { name := "alice-viewer", nameSpace := "" },
         subjects := [{ kind := "User", apiGroup := "", name := "alice", nameSpace := "" }],
         roleRef := { apiGroup := "", kind := "ClusterRole", name := "viewer" } }] :=
  ⟨rfl,
    (recreate_submits_single_subject okClient "ServiceAccount" "svc1-viewer" "svc1" "teamA"
      "viewer" "infra" ()).2.1 rfl,
    rfl,
    (recreate_submits_single_subject okClient "User" "alice-viewer" "alice" "" "viewer" "" ()).2.2.2
      rfl⟩

/-! ## Batches on a cluster whose calls succeed -/

/-- The creates of a trace in two parts are those of the parts. -/
theorem crbCreates_append (a b : List Event) :
    crbCreates (a ++ b) = crbCreates a ++ crbCreates b := by
  induction a with
  | nil => rfl
  | cons e rest ih => cases e <;> simp [crbCreates, ih]

/-- The creates of a trace in two parts are those of the parts. -/
theorem rbCreates_append (a b : List Event) :
    rbCreates (a ++ b) = rbCreates a ++ rbCreates b := by
  induction a with
  | nil => rfl
  | cons e rest ih => cases e <;> simp [rbCreates, ih]

/-- With calls that succeed, `reCreateClusterRoleBinding` returns nil. -/
theorem reCreateClusterRoleBinding_succeeds (K : KubeClient σ) (h : AllCallsSucceed K)
    (roleBindingType name username roleRef saNameSpace : String) (s : σ) :
    (reCreateClusterRoleBinding K roleBindingType name username roleRef saNameSpace s).ret = none := by
  simp only [reCreateClusterRoleBinding]
  split
  · next err s1 hget =>
    have hnf := h.crbGet name s err (by rw [hget])
    simp only [hnf, Bool.not_true, Bool.false_eq_true, ite_false]
    split
    · next err2 s2 hcr =>
      have hfst := congrArg Prod.fst hcr
      simp [h.crbCreate] at hfst
    · rfl
  · next s1 hget =>
    split
    · next err2 s2 hdel =>
      have hfst := congrArg Prod.fst hdel
      simp [h.crbDelete] at hfst
    · split
      · next err3 s3 hcr =>
        have hfst := congrArg Prod.fst hcr
        simp [h.crbCreate] at hfst
      · rfl

/-- With calls that succeed, `reCreateRoleBinding` returns nil. -/
theorem reCreateRoleBinding_succeeds (K : KubeClient σ) (h : AllCallsSucceed K)
    (roleBindingType name username nameSpace roleRef saNameSpace : String) (s : σ) :
    (reCreateRoleBinding K roleBindingType name username nameSpace roleRef saNameSpace s).ret
      = none := by
  simp only [reCreateRoleBinding]
  split
  · next err s1 hget =>
    have hnf := h.rbGet nameSpace name s err (by rw [hget])
    simp only [hnf, Bool.not_true, Bool.false_eq_true, ite_false]
    split
    · next err2 s2 hcr =>
      have hfst := congrArg Prod.fst hcr
      simp [h.rbCreate] at hfst
    · rfl
  · next s1 hget =>
    split
    · next err2 s2 hdel =>
      have hfst := congrArg Prod.fst hdel
      simp [h.rbDelete] at hfst
    · split
      · next err3 s3 hcr =>
        have hfst := congrArg Prod.fst hcr
        simp [h.rbCreate] at hfst
      · rfl

/-- With creates that succeed, `createNsIfNotExist` returns nil; whatever the
client answers, its trace starts with the lookup of the namespace and holds
namespace calls only. -/
theorem createNsIfNotExist_trace (K : KubeClient σ) (nameSpace : String) (s : σ) :
    let r := createNsIfNotExist K nameSpace s
    ((∀ ns s1, (K.nsCreate ns s1).1 = none) → r.ret = none) ∧
    (∃ rest, r.trace = Event.nsGet nameSpace :: rest) ∧
    ∀ e ∈ r.trace, e.isNamespaceCall = true := by
  intro r
  simp only [r, createNsIfNotExist]
  split
  · split
    · split
      · next err2 s2 hcr =>
        refine ⟨fun hc => ?_, by simp, by simp [Event.isNamespaceCall]⟩
        have hfst := congrArg Prod.fst hcr
        simp [hc] at hfst
      · simp [Event.isNamespaceCall]
    · simp [Event.isNamespaceCall]
  · simp [Event.isNamespaceCall]

/-- With calls that succeed, `reCreateClusterRoleBinding` returns nil, creates
its one binding and makes `ClusterRoleBinding` calls only. -/
theorem reCreateClusterRoleBinding_ok (K : KubeClient σ) (h : AllCallsSucceed K)
    (roleBindingType name username roleRef saNameSpace : String) (s : σ) :
    let r := reCreateClusterRoleBinding K roleBindingType name username roleRef saNameSpace s
    r.ret = none ∧
    crbCreates r.trace =
      [{ metadata := { name := name, nameSpace := "" },
         subjects := subjectsFor roleBindingType username saNameSpace,
         roleRef := { kind := "ClusterRole", name := roleRef } }] ∧
    ∀ e ∈ r.trace, e.isRoleBindingCall = false ∧ e.isNamespaceCall = false := by
  intro r
  have hret := reCreateClusterRoleBinding_succeeds K h roleBindingType name username roleRef
    saNameSpace s
  refine ⟨hret, ?_⟩
  rcases reCreateClusterRoleBinding_cases K roleBindingType name username roleRef saNameSpace s
    with hc | hc | hc | hc
  · exact absurd hret hc.1
  · exact absurd hret hc.1
  · simp only [r, hc]
    simp [crbCreates, Event.isRoleBindingCall, Event.rbNamespace?, Event.isNamespaceCall]
  · simp only [r, hc]
    simp [crbCreates, Event.isRoleBindingCall, Event.rbNamespace?, Event.isNamespaceCall]

/-- With calls that succeed, `reCreateRoleBinding` returns nil, creates its one
binding and makes `RoleBinding` calls in its namespace only. -/
theorem reCreateRoleBinding_ok (K : KubeClient σ) (h : AllCallsSucceed K)
    (roleBindingType name username nameSpace roleRef saNameSpace : String) (s : σ) :
    let r := reCreateRoleBinding K roleBindingType name username nameSpace roleRef saNameSpace s
    r.ret = none ∧
    rbCreates r.trace =
      [(nameSpace,
        { metadata := { name := name, nameSpace := nameSpace },
          subjects := subjectsFor roleBindingType username saNameSpace,
          roleRef := { kind := "ClusterRole", name := roleRef } })] ∧
    ∀ e ∈ r.trace, e.isClusterRoleBindingCall = false ∧ e.rbNamespace? = some nameSpace := by
  intro r
  have hret := reCreateRoleBinding_succeeds K h roleBindingType name username nameSpace roleRef
    saNameSpace s
  refine ⟨hret, ?_⟩
  rcases reCreateRoleBinding_cases K roleBindingType name username nameSpace roleRef saNameSpace s
    with hc | hc | hc | hc
  · exact absurd hret hc.1
  · exact absurd hret hc.1
  · simp only [r, hc]
    simp [rbCreates, Event.isClusterRoleBindingCall, Event.rbNamespace?]
  · simp only [r, hc]
    simp [rbCreates, Event.isClusterRoleBindingCall, Event.rbNamespace?]

/-- With calls that succeed, the cluster-wide loop returns nil, creates one
binding per role in list order and makes `ClusterRoleBinding` calls only. -/
theorem clusterRoleLoop_ok (K : KubeClient σ) (h : AllCallsSucceed K)
    (roleBindingType saNameSpace username : String) (clusterRoles : List String) (s : σ) :
    let r := clusterRoleLoop K roleBindingType saNameSpace username clusterRoles s
    r.ret = none ∧
    crbCreates r.trace = clusterRoles.map (fun cr =>
      ({ metadata := { name := username ++ "-" ++ cr, nameSpace := "" },
         subjects := subjectsFor roleBindingType username saNameSpace,
         roleRef := { kind := "ClusterRole", name := cr } } : ClusterRoleBinding)) ∧
    ∀ e ∈ r.trace, e.isRoleBindingCall = false ∧ e.isNamespaceCall = false := by
  induction clusterRoles generalizing s with
  | nil => simp [clusterRoleLoop, crbCreates]
  | cons cr rest ih =>
    intro r
    obtain ⟨hret, hcreates, hcalls⟩ := reCreateClusterRoleBinding_ok K h roleBindingType
      (bindingName username cr) username cr saNameSpace s
    obtain ⟨iret, icreates, icalls⟩ := ih
      (reCreateClusterRoleBinding K roleBindingType (bindingName username cr) username cr
        saNameSpace s).cluster
    simp only [r, clusterRoleLoop, hret]
    refine ⟨iret, ?_, ?_⟩
    · simp only [crbCreates_append, hcreates, icreates]
      simp [crbCreates, bindingName]
    · intro e he
      simp only [List.mem_append, List.mem_singleton] at he
      rcases he with (he | he) | he
      · exact hcalls e he
      · subst he
        simp [Event.isRoleBindingCall, Event.rbNamespace?, Event.isNamespaceCall]
      · exact icalls e he

/-- With calls that succeed, the loop over the roles of one namespace returns
nil, creates one binding per role in list order in that namespace, and makes
`RoleBinding` calls in that namespace and log lines only. -/
theorem roleLoop_ok (K : KubeClient σ) (h : AllCallsSucceed K)
    (roleBindingType saNameSpace username ns : String) (clusterRoles : List String) (s : σ) :
    let r := roleLoop K roleBindingType saNameSpace username ns clusterRoles s
    r.ret = none ∧
    rbCreates r.trace = clusterRoles.map (fun cr =>
      (ns, ({ metadata := { name := username ++ "-" ++ cr, nameSpace := ns },
              subjects := subjectsFor roleBindingType username saNameSpace,
              roleRef := { kind := "ClusterRole", name := cr } } : RoleBinding))) ∧
    ∀ e ∈ r.trace, e.isClusterRoleBindingCall = false ∧
      ∀ ns1, e.rbNamespace? = some ns1 → ns1 = ns := by
  induction clusterRoles generalizing s with
  | nil => simp [roleLoop, rbCreates]
  | cons cr rest ih =>
    intro r
    obtain ⟨hret, hcreates, hcalls⟩ := reCreateRoleBinding_ok K h roleBindingType
      (bindingName username cr) username ns cr saNameSpace s
    obtain ⟨iret, icreates, icalls⟩ := ih
      (reCreateRoleBinding K roleBindingType (bindingName username cr) username ns cr
        saNameSpace s).cluster
    simp only [r, roleLoop, hret]
    refine ⟨iret, ?_, ?_⟩
    · simp only [rbCreates_append, hcreates, icreates]
      simp [rbCreates, bindingName]
    · intro e he
      simp only [List.mem_append, List.mem_singleton] at he
      rcases he with (he | he) | he
      · refine ⟨(hcalls e he).1, fun ns1 h1 => ?_⟩
        rw [(hcalls e he).2] at h1
        exact (Option.some.inj h1).symm
      · subst he
        simp [Event.isClusterRoleBindingCall, Event.rbNamespace?]
      · exact icalls e he

/-- A trace whose binding calls are all in namespaces already seen. -/
theorem ensuredBefore_of_forall (seen tr : List Event)
    (h : ∀ e ∈ tr, ∀ ns, e.rbNamespace? = some ns → Event.nsGet ns ∈ seen) :
    EnsuredBefore seen tr := by
  intro before e after ns htr hns
  have hmem : e ∈ tr := by rw [htr]; simp
  exact List.mem_append_left _ (h e hmem ns hns)

/-- Seeing more lookups keeps a trace ensured. -/
theorem ensuredBefore_mono (seen seen2 tr : List Event) (h : EnsuredBefore seen tr)
    (hsub : ∀ x ∈ seen, x ∈ seen2) : EnsuredBefore seen2 tr := by
  intro before e after ns htr hns
  rcases List.mem_append.mp (h before e after ns htr hns) with hm | hm
  · exact List.mem_append_left _ (hsub _ hm)
  · exact List.mem_append_right _ hm

/-- Two ensured traces in a row are ensured, the second one seeing the first. -/
theorem ensuredBefore_append (seen a b : List Event) (ha : EnsuredBefore seen a)
    (hb : EnsuredBefore (seen ++ a) b) : EnsuredBefore seen (a ++ b) := by
  intro before e after ns htr hns
  rcases List.append_eq_append_iff.mp htr with ⟨mid, hbefore, hb2⟩ | ⟨mid, ha2, hrest⟩
  · have := hb mid e after ns hb2 hns
    rw [hbefore]
    simpa [List.append_assoc] using this
  · cases mid with
    | nil =>
      simp only [List.nil_append] at hrest
      simp only [List.append_nil] at ha2
      have := hb [] e after ns hrest.symm hns
      rw [← ha2]
      simpa using this
    | cons x mid2 =>
      simp only [List.cons_append, List.cons.injEq] at hrest
      obtain ⟨hx, _⟩ := hrest
      subst hx
      exact ha before e mid2 ns ha2 hns

/-- A trace of namespace calls creates no role binding. -/
theorem rbCreates_eq_nil (tr : List Event) (h : ∀ e ∈ tr, e.isNamespaceCall = true) :
    rbCreates tr = [] := by
  induction tr with
  | nil => rfl
  | cons e rest ih =>
    have he := h e (List.mem_cons_self _ _)
    have hrest := ih (fun x hx => h x (List.mem_cons_of_mem _ hx))
    cases e <;> simp_all [rbCreates, Event.isNamespaceCall]

/-- A namespace call is no call on either kind of binding. -/
theorem isNamespaceCall_not_binding (e : Event) (h : e.isNamespaceCall = true) :
    e.rbNamespace? = none ∧ e.isClusterRoleBindingCall = false := by
  cases e <;> simp_all [Event.isNamespaceCall, Event.rbNamespace?, Event.isClusterRoleBindingCall]

/-- A table built row by row has rows times columns entries. -/
theorem length_flatten_map_map {α β γ : Type} (xs : List α) (ys : List β) (h : α → β → γ) :
    ((xs.map (fun x => ys.map (h x))).flatten).length = xs.length * ys.length := by
  induction xs with
  | nil => simp
  | cons x rest ih => simp [ih, Nat.succ_mul, Nat.add_comm]

/-- With calls that succeed, the loop over the namespaces returns nil, creates
one binding per namespace and role in namespace-major order, makes no
`ClusterRoleBinding` call, and looks every namespace up before the binding
calls in it. -/
theorem namespaceLoop_ok (K : KubeClient σ) (h : AllCallsSucceed K)
    (roleBindingType saNameSpace username : String) (clusterRoles namespaces : List String)
    (s : σ) :
    let r := namespaceLoop K roleBindingType saNameSpace username clusterRoles namespaces s
    r.ret = none ∧
    rbCreates r.trace = (namespaces.map (fun ns => clusterRoles.map (fun cr =>
      (ns, ({ metadata := { name := username ++ "-" ++ cr, nameSpace := ns },
              subjects := subjectsFor roleBindingType username saNameSpace,
              roleRef := { kind := "ClusterRole", name := cr } } : RoleBinding))))).flatten ∧
    (∀ e ∈ r.trace, e.isClusterRoleBindingCall = false) ∧
    EnsuredBefore [] r.trace := by
  induction namespaces generalizing s with
  | nil =>
    refine ⟨rfl, rfl, by simp [namespaceLoop], ?_⟩
    intro before e after ns htr
    simp [namespaceLoop] at htr
  | cons ns rest ih =>
    intro r
    obtain ⟨nret, ⟨tail, nhead⟩, ncalls⟩ := createNsIfNotExist_trace K ns s
    have nret2 := nret h.nsCreate
    obtain ⟨lret, lcreates, lcalls⟩ := roleLoop_ok K h roleBindingType saNameSpace username ns
      clusterRoles (createNsIfNotExist K ns s).cluster
    obtain ⟨iret, icreates, icalls, iensured⟩ := ih
      (roleLoop K roleBindingType saNameSpace username ns clusterRoles
        (createNsIfNotExist K ns s).cluster).cluster
    simp only [r, namespaceLoop, nret2, lret]
    refine ⟨iret, ?_, ?_, ?_⟩
    · simp only [rbCreates_append, rbCreates_eq_nil _ ncalls, lcreates, icreates]
      simp
    · intro e he
      simp only [List.mem_append] at he
      rcases he with (he | he) | he
      · exact (isNamespaceCall_not_binding e (ncalls e he)).2
      · exact (lcalls e he).1
      · exact icalls e he
    · rw [List.append_assoc]
      apply ensuredBefore_append
      · apply ensuredBefore_of_forall
        intro e he ns1 hns1
        rw [(isNamespaceCall_not_binding e (ncalls e he)).1] at hns1
        cases hns1
      · apply ensuredBefore_append
        · apply ensuredBefore_of_forall
          intro e he ns1 hns1
          rw [(lcalls e he).2 ns1 hns1, nhead]
          simp
        · exact ensuredBefore_mono [] _ _ iensured (fun x hx => by cases hx)

/-- The client whose calls all succeed is one. -/
theorem okClient_allCallsSucceed : AllCallsSucceed okClient :=
  ⟨fun _ _ _ h => (by cases h), fun _ _ => rfl, fun _ _ _ _ h => (by cases h), fun _ _ _ => rfl,
    fun _ _ _ => rfl, fun _ _ _ h => (by cases h), fun _ _ => rfl, fun _ _ => rfl⟩

/-- C2: with an empty namespace list on a cluster whose calls all succeed,
`GenerateBinding` returns nil, creates one `ClusterRoleBinding` per role in
list order, the one of role `cr` being named `username-cr` and referring to
`cr`, and makes no `RoleBinding` and no `Namespace` call. -/
theorem generateBinding_cluster_wide (K : KubeClient σ) (h : AllCallsSucceed K)
    (roleBindingType saNameSpace username : String) (clusterRoles : List String) (s : σ) :
    let r := GenerateBinding K roleBindingType saNameSpace username clusterRoles [] s
    r.ret = none ∧
    (crbCreates r.trace).map (fun crb => (crb.metadata.name, crb.roleRef.name)) =
      clusterRoles.map (fun cr => (username ++ "-" ++ cr, cr)) ∧
    (crbCreates r.trace).length = clusterRoles.length ∧
    ∀ e ∈ r.trace, e.isRoleBindingCall = false ∧ e.isNamespaceCall = false := by
  intro r
  obtain ⟨hret, hcreates, hcalls⟩ := clusterRoleLoop_ok K h roleBindingType saNameSpace username
    clusterRoles s
  have hr : r = clusterRoleLoop K roleBindingType saNameSpace username clusterRoles s := by
    simp [r, GenerateBinding]
  rw [hr]
  refine ⟨hret, ?_, ?_, hcalls⟩
  · rw [hcreates, List.map_map]
    rfl
  · rw [hcreates, List.length_map]

/-- C2 (sample run): user `alice`, kind `User`, roles `viewer` and `editor`,
no namespace, on the client whose calls all succeed: the creates are
`alice-viewer` and then `alice-editor`. -/
theorem generateBinding_cluster_wide_witness :
    (GenerateBinding okClient "User" "" "alice" ["viewer", "editor"] [] ()).ret = none ∧
    (crbCreates (GenerateBinding okClient "User" "" "alice" ["viewer", "editor"] []
      ()).trace).map (fun crb => (crb.metadata.name, crb.roleRef.name)) =
      [("alice-viewer", "viewer"), ("alice-editor", "editor")] :=
  ⟨(generateBinding_cluster_wide okClient okClient_allCallsSucceed "User" "" "alice"
      ["viewer", "editor"] ()).1,
    (generateBinding_cluster_wide okClient okClient_allCallsSucceed "User" "" "alice"
      ["viewer", "editor"] ()).2.1⟩

/-! ## The first failure stops the batch -/

/-- The cluster-wide loop runs the batch of its recreate steps. -/
theorem clusterRoleLoop_eq_runBatch (K : KubeClient σ)
    (roleBindingType saNameSpace username : String) (clusterRoles : List String) (s : σ) :
    clusterRoleLoop K roleBindingType saNameSpace username clusterRoles s =
      runBatch K roleBindingType saNameSpace username
        (clusterRoles.map Step.recreateClusterRoleBinding) s := by
  induction clusterRoles generalizing s with
  | nil => rfl
  | cons cr rest ih =>
    simp only [clusterRoleLoop, List.map_cons, runBatch, runStep, stepLog, stepFailure,
      bindingName, ih]

/-- The loop over the roles of a namespace runs the batch of its recreate
steps. -/
theorem roleLoop_eq_runBatch (K : KubeClient σ)
    (roleBindingType saNameSpace username ns : String) (clusterRoles : List String) (s : σ) :
    roleLoop K roleBindingType saNameSpace username ns clusterRoles s =
      runBatch K roleBindingType saNameSpace username
        (clusterRoles.map (Step.recreateRoleBinding ns)) s := by
  induction clusterRoles generalizing s with
  | nil => rfl
  | cons cr rest ih =>
    simp only [roleLoop, List.map_cons, runBatch, runStep, stepLog, stepFailure,
      bindingName, ih]

/-- A batch of two parts runs the first part and, when it succeeds, the
second. -/
theorem runBatch_append (K : KubeClient σ) (roleBindingType saNameSpace username : String)
    (a b : List Step) (s : σ) :
    runBatch K roleBindingType saNameSpace username (a ++ b) s =
      match (runBatch K roleBindingType saNameSpace username a s).ret with
      | some _ => runBatch K roleBindingType saNameSpace username a s
      | none =>
        ⟨(runBatch K roleBindingType saNameSpace username b
            (runBatch K roleBindingType saNameSpace username a s).cluster).ret,
          (runBatch K roleBindingType saNameSpace username b
            (runBatch K roleBindingType saNameSpace username a s).cluster).cluster,
          (runBatch K roleBindingType saNameSpace username a s).trace ++
            (runBatch K roleBindingType saNameSpace username b
              (runBatch K roleBindingType saNameSpace username a s).cluster).trace⟩ := by
  induction a generalizing s with
  | nil => simp [runBatch]
  | cons st rest ih =>
    rw [List.cons_append]
    simp only [runBatch]
    cases hst : (runStep K roleBindingType saNameSpace username st s).ret with
    | some e => simp
    | none =>
      simp only [ih]
      split <;> simp_all

/-- The loop over the namespaces runs the batch of its steps. -/
theorem namespaceLoop_eq_runBatch (K : KubeClient σ)
    (roleBindingType saNameSpace username : String) (clusterRoles namespaces : List String)
    (s : σ) :
    namespaceLoop K roleBindingType saNameSpace username clusterRoles namespaces s =
      runBatch K roleBindingType saNameSpace username
        ((namespaces.map (fun ns =>
          Step.ensureNamespace ns :: clusterRoles.map (Step.recreateRoleBinding ns))).flatten)
        s := by
  induction namespaces generalizing s with
  | nil => rfl
  | cons ns rest ih =>
    cases hns : (createNsIfNotExist K ns s).ret with
    | some e =>
      simp only [List.map_cons, List.flatten_cons, List.cons_append]
      simp only [namespaceLoop, hns, runBatch, runStep, stepFailure]
    | none =>
      simp only [List.map_cons, List.flatten_cons, List.cons_append]
      simp only [namespaceLoop, hns, runBatch, runStep, stepLog, List.append_nil]
      rw [runBatch_append, ← roleLoop_eq_runBatch]
      cases hl : (roleLoop K roleBindingType saNameSpace username ns clusterRoles
          (createNsIfNotExist K ns s).cluster).ret with
      | some e => simp [hl]
      | none => simp [hl, ih]

/-- The method `GenerateBinding` runs the batch of the steps of its input. -/
theorem generateBinding_eq_runBatch (K : KubeClient σ)
    (roleBindingType saNameSpace username : String) (clusterRoles namespaces : List String)
    (s : σ) :
    GenerateBinding K roleBindingType saNameSpace username clusterRoles namespaces s =
      runBatch K roleBindingType saNameSpace username (stepsOf clusterRoles namespaces) s := by
  cases namespaces with
  | nil => simp [GenerateBinding, stepsOf, clusterRoleLoop_eq_runBatch]
  | cons ns rest =>
    simp only [GenerateBinding, stepsOf, namespaceLoop_eq_runBatch, List.length_cons]
    simp

/-- A batch whose first steps succeed and whose next step fails ends with that
step: its error wrapped, its cluster state, and no event after its own. -/
theorem runBatch_first_failure (K : KubeClient σ) (roleBindingType saNameSpace username : String)
    (done : List Step) (st : Step) (later : List Step) (s s1 : σ) (tr1 : List Event) (e : Err)
    (hdone : runAll K roleBindingType saNameSpace username done s = some (s1, tr1))
    (hfail : (runStep K roleBindingType saNameSpace username st s1).ret = some e) :
    runBatch K roleBindingType saNameSpace username (done ++ st :: later) s =
      ⟨some (stepFailure username st e),
        (runStep K roleBindingType saNameSpace username st s1).cluster,
        tr1 ++ (runStep K roleBindingType saNameSpace username st s1).trace⟩ := by
  induction done generalizing s tr1 with
  | nil =>
    simp only [runAll, Option.some.injEq, Prod.mk.injEq] at hdone
    obtain ⟨hs, htr⟩ := hdone
    subst hs
    subst htr
    simp only [List.nil_append, runBatch, hfail]
  | cons d rest ih =>
    simp only [runAll] at hdone
    cases hd : (runStep K roleBindingType saNameSpace username d s).ret with
    | some e2 => simp [hd] at hdone
    | none =>
      simp only [hd] at hdone
      cases hrest : runAll K roleBindingType saNameSpace username rest
          (runStep K roleBindingType saNameSpace username d s).cluster with
      | none => simp [hrest] at hdone
      | some p =>
        obtain ⟨s2, tr2⟩ := p
        simp only [hrest, Option.some.injEq, Prod.mk.injEq] at hdone
        obtain ⟨hs, htr⟩ := hdone
        subst hs
        subst htr
        rw [List.cons_append]
        simp only [runBatch, hd, ih _ _ hrest, List.append_assoc]

/-- A text is named by every message built around it. -/
theorem names_middle (a needle b c : String) : Names (a ++ needle ++ b ++ c) needle := by
  unfold Names
  simp only [String.data_append]
  exact ⟨a.data, b.data ++ c.data, by simp⟩

/-- C5: when the steps of a batch before some step all succeed and that step
returns an error, `GenerateBinding` returns an error that wraps it, with a
message naming the namespace (for a namespace ensure) or the user (for a
recreate); the cluster is left as the failing step left it, and the events are
those of the steps before followed by those of the failing step, so nothing is
run for a later step and nothing is undone. -/
theorem generateBinding_stops_at_first_failure (K : KubeClient σ)
    (roleBindingType saNameSpace username : String) (clusterRoles namespaces : List String)
    (s : σ) (done : List Step) (st : Step) (later : List Step) (s1 : σ) (tr1 : List Event)
    (e : Err)
    (hsteps : stepsOf clusterRoles namespaces = done ++ st :: later)
    (hdone : runAll K roleBindingType saNameSpace username done s = some (s1, tr1))
    (hfail : (runStep K roleBindingType saNameSpace username st s1).ret = some e) :
    let r := GenerateBinding K roleBindingType saNameSpace username clusterRoles namespaces s
    let f := runStep K roleBindingType saNameSpace username st s1
    (∃ err, r.ret = some err ∧ err.Unwrap = some e ∧
      match st with
      | Step.ensureNamespace ns =>
        err.Error = "create namespace " ++ ns ++ ",err: " ++ e.Error ∧ Names err.Error ns
      | Step.recreateClusterRoleBinding _ =>
        err.Error = "create cluster role binding for " ++ username ++ " err: " ++ e.Error ∧
          Names err.Error username
      | Step.recreateRoleBinding _ _ =>
        err.Error = "create role binding for " ++ username ++ " err: " ++ e.Error ∧
          Names err.Error username) ∧
    r.cluster = f.cluster ∧ r.trace = tr1 ++ f.trace := by
  intro r f
  have hr : r = ⟨some (stepFailure username st e), f.cluster, tr1 ++ f.trace⟩ := by
    simp only [r, f, generateBinding_eq_runBatch, hsteps]
    exact runBatch_first_failure K roleBindingType saNameSpace username done st later s s1 tr1 e
      hdone hfail
  rw [hr]
  refine ⟨⟨stepFailure username st e, rfl, ?_, ?_⟩, rfl, rfl⟩
  · cases st <;> rfl
  · cases st with
    | ensureNamespace ns => exact ⟨rfl, names_middle _ _ _ _⟩
    | recreateClusterRoleBinding cr => exact ⟨rfl, names_middle _ _ _ _⟩
    | recreateRoleBinding ns cr => exact ⟨rfl, names_middle _ _ _ _⟩

/-- C5 (sample runs): with roles `viewer`, `editor`, `admin` and a cluster that
refuses to create `alice-editor`, the batch stops there, after the whole step
for `viewer` and with no call for `admin`; with namespaces `teamA`, `teamB`
and a cluster that refuses to create `teamB`, the batch stops at the ensure of
`teamB`, after the binding in `teamA` and with no binding call in `teamB`. -/
theorem generateBinding_stops_at_first_failure_witness :
    (∃ err,
      (GenerateBinding (stubClient refuseAliceEditor (fun _ => Except.error errForbidden)) "User" ""
        "alice" ["viewer", "editor", "admin"] [] ()).ret = some err ∧
      err.Unwrap = some errForbidden ∧
      err.Error = "create cluster role binding for " ++ "alice" ++ " err: " ++ errForbidden.Error ∧
      Names err.Error "alice") ∧
    (GenerateBinding (stubClient refuseAliceEditor (fun _ => Except.error errForbidden)) "User" ""
        "alice" ["viewer", "editor", "admin"] [] ()).trace =
      [Event.crbGet "alice-viewer", Event.crbDelete "alice-viewer",
        Event.crbCreate
          { metadata := { name := "alice-viewer" },
            subjects := [{ kind := "User", name := "alice" }],
            roleRef := { kind := "ClusterRole", name := "viewer" } },
        Event.log "INFO" "create cluster role binding %s success" ["alice-viewer"]] ++
      [Event.crbGet "alice-editor", Event.crbDelete "alice-editor",
        Event.crbCreate
          { metadata := { name := "alice-editor" },
            subjects := [{ kind := "User", name := "alice" }],
            roleRef := { kind := "ClusterRole", name := "editor" } }] ∧
    (∃ err,
      (GenerateBinding (stubClient refuseTeamB (fun _ => Except.error errForbidden)) "User" ""
        "bob" ["viewer"] ["teamA", "teamB"] ()).ret = some err ∧
      err.Unwrap = some errForbidden ∧
      err.Error = "create namespace " ++ "teamB" ++ ",err: " ++ errForbidden.Error ∧
      Names err.Error "teamB") ∧
    (GenerateBinding (stubClient refuseTeamB (fun _ => Except.error errForbidden)) "User" ""
        "bob" ["viewer"] ["teamA", "teamB"] ()).trace =
      [Event.nsGet "teamA", Event.nsCreate { metadata := { name := "teamA" } },
        Event.rbGet "teamA" "bob-viewer", Event.rbDelete "teamA" "bob-viewer",
        Event.rbCreate "teamA"
          { metadata := { name := "bob-viewer", nameSpace := "teamA" },
            subjects := [{ kind := "User", name := "bob" }],
            roleRef := { kind := "ClusterRole", name := "viewer" } },
        Event.log "INFO" "create role binding %s in %s namespace success" ["bob-viewer", "teamA"]] ++
      [Event.nsGet "teamB", Event.nsCreate { metadata := { name := "teamB" } }] :=
  ⟨(generateBinding_stops_at_first_failure
      (stubClient refuseAliceEditor (fun _ => Except.error errForbidden)) "User" "" "alice"
      ["viewer", "editor", "admin"] [] ()
      [Step.recreateClusterRoleBinding "viewer"] (Step.recreateClusterRoleBinding "editor")
      [Step.recreateClusterRoleBinding "admin"] () _ errForbidden rfl rfl rfl).1,
    (generateBinding_stops_at_first_failure
      (stubClient refuseAliceEditor (fun _ => Except.error errForbidden)) "User" "" "alice"
      ["viewer", "editor", "admin"] [] ()
      [Step.recreateClusterRoleBinding "viewer"] (Step.recreateClusterRoleBinding "editor")
      [Step.recreateClusterRoleBinding "admin"] () _ errForbidden rfl rfl rfl).2.2,
    (generateBinding_stops_at_first_failure
      (stubClient refuseTeamB (fun _ => Except.error errForbidden)) "User" "" "bob"
      ["viewer"] ["teamA", "teamB"] ()
      [Step.ensureNamespace "teamA", Step.recreateRoleBinding "teamA" "viewer"]
      (Step.ensureNamespace "teamB") [Step.recreateRoleBinding "teamB" "viewer"] () _
      errForbidden rfl rfl rfl).1,
    (generateBinding_stops_at_first_failure
      (stubClient refuseTeamB (fun _ => Except.error errForbidden)) "User" "" "bob"
      ["viewer"] ["teamA", "teamB"] ()
      [Step.ensureNamespace "teamA", Step.recreateRoleBinding "teamA" "viewer"]
      (Step.ensureNamespace "teamB") [Step.recreateRoleBinding "teamB" "viewer"] () _
      errForbidden rfl rfl rfl).2.2⟩

/-! ## The namespaced batch, call by call -/

/-- The subject list the methods build is the one subject of the
specification. -/
theorem subjectsFor_eq_spec (roleBindingType username saNameSpace : String) :
    subjectsFor roleBindingType username saNameSpace =
      [specSubject roleBindingType saNameSpace username] := by
  unfold subjectsFor specSubject
  split <;> simp_all [UserKind, ServiceAccountKind]

/-- With calls that succeed, `createNsIfNotExist` returns nil after the lookup
and, when the lookup did not find the namespace, its creation. -/
theorem createNsIfNotExist_eq_spec (K : KubeClient σ) (h : AllCallsSucceed K)
    (roleBindingType saNameSpace username ns : String) (s : σ) :
    createNsIfNotExist K ns s =
      ⟨none, (specStep K roleBindingType saNameSpace username (Step.ensureNamespace ns) s).1,
        (specStep K roleBindingType saNameSpace username (Step.ensureNamespace ns) s).2⟩ := by
  rcases hget : K.nsGet ns s with ⟨_ | e, s1⟩
  · simp only [specStep, createNsIfNotExist, hget]
  · have hnf : IsNotFound e = true := h.nsGet ns s e (by rw [hget])
    have hok := h.nsCreate { metadata := { name := ns } } s1
    rcases hcr : K.nsCreate { metadata := { name := ns } } s1 with ⟨_ | e2, s2⟩
    · simp only [specStep, createNsIfNotExist, hget, hnf, hcr, ite_true]
    · rw [hcr] at hok
      simp at hok

/-- With calls that succeed, `reCreateRoleBinding` for a user and a role
returns nil after the lookup, the delete of a binding that was found, and the
create of the new binding. -/
theorem reCreateRoleBinding_eq_spec (K : KubeClient σ) (h : AllCallsSucceed K)
    (roleBindingType saNameSpace username ns cr : String) (s : σ) :
    reCreateRoleBinding K roleBindingType (username ++ "-" ++ cr) username ns cr saNameSpace s =
      ⟨none,
        (specStep K roleBindingType saNameSpace username (Step.recreateRoleBinding ns cr) s).1,
        (specStep K roleBindingType saNameSpace username (Step.recreateRoleBinding ns cr) s).2⟩ := by
  have hcreate : ∀ s1, K.rbCreate ns (specRoleBinding roleBindingType saNameSpace username ns cr) s1 =
      (none, (K.rbCreate ns (specRoleBinding roleBindingType saNameSpace username ns cr) s1).2) :=
    fun s1 => Prod.ext (h.rbCreate _ _ _) rfl
  rcases hget : K.rbGet ns (username ++ "-" ++ cr) s with ⟨_ | e, s1⟩
  · have hok := h.rbDelete ns (username ++ "-" ++ cr) s1
    rcases hdel : K.rbDelete ns (username ++ "-" ++ cr) s1 with ⟨_ | e2, s2⟩
    · have hc := hcreate s2
      simp only [specRoleBinding] at hc
      simp only [specStep, reCreateRoleBinding, hget, hdel, subjectsFor_eq_spec, specRoleBinding]
      rw [hc]
      simp
    · rw [hdel] at hok
      simp at hok
  · have hnf : IsNotFound e = true := h.rbGet ns _ s e (by rw [hget])
    have hc := hcreate s1
    simp only [specRoleBinding] at hc
    simp only [specStep, reCreateRoleBinding, hget, hnf, subjectsFor_eq_spec, specRoleBinding]
    rw [hc]
    simp

/-- With calls that succeed, `reCreateClusterRoleBinding` for a user and a role
returns nil after the lookup, the delete of a binding that was found, and the
create of the new binding. -/
theorem reCreateClusterRoleBinding_eq_spec (K : KubeClient σ) (h : AllCallsSucceed K)
    (roleBindingType saNameSpace username cr : String) (s : σ) :
    reCreateClusterRoleBinding K roleBindingType (username ++ "-" ++ cr) username cr saNameSpace s =
      ⟨none,
        (specStep K roleBindingType saNameSpace username (Step.recreateClusterRoleBinding cr) s).1,
        (specStep K roleBindingType saNameSpace username (Step.recreateClusterRoleBinding cr)
          s).2⟩ := by
  have hcreate : ∀ s1, K.crbCreate (specClusterRoleBinding roleBindingType saNameSpace username cr) s1 =
      (none, (K.crbCreate (specClusterRoleBinding roleBindingType saNameSpace username cr) s1).2) :=
    fun s1 => Prod.ext (h.crbCreate _ _) rfl
  rcases hget : K.crbGet (username ++ "-" ++ cr) s with ⟨_ | e, s1⟩
  · have hok := h.crbDelete (username ++ "-" ++ cr) s1
    rcases hdel : K.crbDelete (username ++ "-" ++ cr) s1 with ⟨_ | e2, s2⟩
    · have hc := hcreate s2
      simp only [specClusterRoleBinding] at hc
      simp only [specStep, reCreateClusterRoleBinding, hget, hdel, subjectsFor_eq_spec,
        specClusterRoleBinding]
      rw [hc]
      simp
    · rw [hdel] at hok
      simp at hok
  · have hnf : IsNotFound e = true := h.crbGet _ s e (by rw [hget])
    have hc := hcreate s1
    simp only [specClusterRoleBinding] at hc
    simp only [specStep, reCreateClusterRoleBinding, hget, hnf, subjectsFor_eq_spec,
      specClusterRoleBinding]
    rw [hc]
    simp

/-- With calls that succeed, the call of a step returns nil, leaves the state
and issues the calls of the specification. -/
theorem runStep_eq_spec (K : KubeClient σ) (h : AllCallsSucceed K)
    (roleBindingType saNameSpace username : String) (st : Step) (s : σ) :
    runStep K roleBindingType saNameSpace username st s =
      ⟨none, (specStep K roleBindingType saNameSpace username st s).1,
        (specStep K roleBindingType saNameSpace username st s).2⟩ := by
  cases st with
  | ensureNamespace ns =>
    exact createNsIfNotExist_eq_spec K h roleBindingType saNameSpace username ns s
  | recreateClusterRoleBinding cr =>
    exact reCreateClusterRoleBinding_eq_spec K h roleBindingType saNameSpace username cr s
  | recreateRoleBinding ns cr =>
    exact reCreateRoleBinding_eq_spec K h roleBindingType saNameSpace username ns cr s

/-- The calls a step issues by the specification are API calls. -/
theorem apiCalls_specStep (K : KubeClient σ) (roleBindingType saNameSpace username : String)
    (st : Step) (s : σ) :
    apiCalls (specStep K roleBindingType saNameSpace username st s).2 =
      (specStep K roleBindingType saNameSpace username st s).2 := by
  cases st <;> simp only [specStep] <;> split <;> simp [apiCalls, Event.isApiCall]

/-- The log line of a step is no API call. -/
theorem apiCalls_stepLog (username : String) (st : Step) :
    apiCalls (stepLog username st) = [] := by
  cases st <;> simp [apiCalls, stepLog, Event.isApiCall]

/-- With calls that succeed, a batch returns nil, leaves the state and issues
the API calls of the specification. -/
theorem runBatch_eq_spec (K : KubeClient σ) (h : AllCallsSucceed K)
    (roleBindingType saNameSpace username : String) (steps : List Step) (s : σ) :
    (runBatch K roleBindingType saNameSpace username steps s).ret = none ∧
    (runBatch K roleBindingType saNameSpace username steps s).cluster =
      (specRun K roleBindingType saNameSpace username steps s).1 ∧
    apiCalls (runBatch K roleBindingType saNameSpace username steps s).trace =
      (specRun K roleBindingType saNameSpace username steps s).2 := by
  induction steps generalizing s with
  | nil => exact ⟨rfl, rfl, rfl⟩
  | cons st rest ih =>
    obtain ⟨iret, icluster, itrace⟩ :=
      ih (specStep K roleBindingType saNameSpace username st s).1
    simp only [runBatch, specRun, runStep_eq_spec K h]
    refine ⟨iret, icluster, ?_⟩
    simp only [apiCalls, List.filter_append] at itrace ⊢
    rw [itrace]
    have h1 := apiCalls_specStep K roleBindingType saNameSpace username st s
    have h2 := apiCalls_stepLog username st
    simp only [apiCalls] at h1 h2
    rw [h1, h2, List.append_nil]

/-- The stateless client of an empty cluster is one whose calls succeed. -/
theorem nothingThere_allCallsSucceed :
    AllCallsSucceed (stubClient nothingThere (fun name => Except.error (errNotFound "csr" name))) := by
  refine ⟨?_, fun _ _ => rfl, ?_, fun _ _ _ => rfl, fun _ _ _ => rfl, ?_, fun _ _ => rfl,
    fun _ _ => rfl⟩
  · intro name s e he
    cases he
    exact isNotFound_errNotFound _ _
  · intro ns name s e he
    cases he
    exact isNotFound_errNotFound _ _
  · intro name s e he
    cases he
    exact isNotFound_errNotFound _ _

/-- C3: with a non-empty namespace list on a cluster whose calls all succeed,
`GenerateBinding` returns nil and creates one `RoleBinding` per namespace and
role, in namespace-major input order, each named `username-role`, referring to
the role and created in its namespace, `len(namespaces) * len(clusterRoles)`
in all; it makes no `ClusterRoleBinding` call; every `RoleBinding` call in a
namespace comes after a lookup of that namespace; and the API calls it issues
and the state it leaves are, step by step, those of the specification: for
each namespace in turn the lookup of the namespace, its creation when the
lookup did not find it, and then for each role the lookup of the binding, the
delete of a binding that was found and the create of the new binding. -/
theorem generateBinding_namespaced (K : KubeClient σ) (h : AllCallsSucceed K)
    (roleBindingType saNameSpace username : String) (clusterRoles namespaces : List String)
    (hne : namespaces ≠ []) (s : σ) :
    let r := GenerateBinding K roleBindingType saNameSpace username clusterRoles namespaces s
    r.ret = none ∧
    (rbCreates r.trace).map
        (fun c => (c.1, c.2.metadata.nameSpace, c.2.metadata.name, c.2.roleRef.name)) =
      (namespaces.map (fun ns =>
        clusterRoles.map (fun cr => (ns, ns, username ++ "-" ++ cr, cr)))).flatten ∧
    (rbCreates r.trace).length = namespaces.length * clusterRoles.length ∧
    (∀ e ∈ r.trace, e.isClusterRoleBindingCall = false) ∧
    (∀ (before : List Event) (e : Event) (after : List Event) (ns : String),
      r.trace = before ++ e :: after → e.rbNamespace? = some ns → Event.nsGet ns ∈ before) ∧
    apiCalls r.trace =
      (specRun K roleBindingType saNameSpace username
        ((namespaces.map (fun ns =>
          Step.ensureNamespace ns :: clusterRoles.map (Step.recreateRoleBinding ns))).flatten)
        s).2 ∧
    r.cluster =
      (specRun K roleBindingType saNameSpace username
        ((namespaces.map (fun ns =>
          Step.ensureNamespace ns :: clusterRoles.map (Step.recreateRoleBinding ns))).flatten)
        s).1 := by
  intro r
  obtain ⟨hret, hcreates, hcalls, hensured⟩ := namespaceLoop_ok K h roleBindingType saNameSpace
    username clusterRoles namespaces s
  have hlen : ¬ namespaces.length = 0 := by
    simpa [List.length_eq_zero] using hne
  have hr : r = namespaceLoop K roleBindingType saNameSpace username clusterRoles namespaces s := by
    simp [r, GenerateBinding, hlen]
  have hspec := runBatch_eq_spec K h roleBindingType saNameSpace username
    ((namespaces.map (fun ns =>
      Step.ensureNamespace ns :: clusterRoles.map (Step.recreateRoleBinding ns))).flatten) s
  rw [← namespaceLoop_eq_runBatch, ← hr] at hspec
  refine ⟨hr ▸ hret, ?_, ?_, hr ▸ hcalls, ?_, hspec.2.2, hspec.2.1⟩
  · rw [hr, hcreates, List.map_flatten, List.map_map]
    congr 1
    apply List.map_congr_left
    intro ns _
    simp [List.map_map, Function.comp_def]
  · rw [hr, hcreates]
    exact length_flatten_map_map namespaces clusterRoles _
  · intro before e after ns htr hns
    rw [hr] at htr
    simpa using hensured before e after ns htr hns

/-- C3 (sample run): service account `svc1` of namespace `infra`, role
`viewer`, namespaces `teamA` and `teamB`, on an empty cluster whose calls
succeed: each namespace is looked up and created before the binding calls in
it, and `svc1-viewer` is created in `teamA` and then in `teamB`. -/
theorem generateBinding_namespaced_witness :
    (["teamA", "teamB"] : List String) ≠ [] ∧
    (GenerateBinding (stubClient nothingThere (fun name => Except.error (errNotFound "csr" name)))
      "ServiceAccount" "infra" "svc1" ["viewer"] ["teamA", "teamB"] ()).ret = none ∧
    (rbCreates (GenerateBinding
      (stubClient nothingThere (fun name => Except.error (errNotFound "csr" name)))
      "ServiceAccount" "infra" "svc1" ["viewer"] ["teamA", "teamB"] ()).trace).map
        (fun c => (c.1, c.2.metadata.nameSpace, c.2.metadata.name, c.2.roleRef.name)) =
      [("teamA", "teamA", "svc1-viewer", "viewer"), ("teamB", "teamB", "svc1-viewer", "viewer")] ∧
    apiCalls (GenerateBinding
      (stubClient nothingThere (fun name => Except.error (errNotFound "csr" name)))
      "ServiceAccount" "infra" "svc1" ["viewer"] ["teamA", "teamB"] ()).trace =
      [Event.nsGet "teamA", Event.nsCreate { metadata := { name := "teamA" } },
        Event.rbGet "teamA" "svc1-viewer",
        Event.rbCreate "teamA"
          { metadata := { name := "svc1-viewer", nameSpace := "teamA" },
            subjects := [{ kind := "ServiceAccount", name := "svc1", nameSpace := "infra" }],
            roleRef := { kind := "ClusterRole", name := "viewer" } },
        Event.nsGet "teamB", Event.nsCreate { metadata := { name := "teamB" } },
        Event.rbGet "teamB" "svc1-viewer",
        Event.rbCreate "teamB"
          { metadata := { name := "svc1-viewer", nameSpace := "teamB" },
            subjects := [{ kind := "ServiceAccount", name := "svc1", nameSpace := "infra" }],
            roleRef := { kind := "ClusterRole", name := "viewer" } }] :=
  ⟨by decide,
    (generateBinding_namespaced
      (stubClient nothingThere (fun name => Except.error (errNotFound "csr" name)))
      nothingThere_allCallsSucceed "ServiceAccount" "infra" "svc1"
      ["viewer"] ["teamA", "teamB"] (by decide) ()).1,
    (generateBinding_namespaced
      (stubClient nothingThere (fun name => Except.error (errNotFound "csr" name)))
      nothingThere_allCallsSucceed "ServiceAccount" "infra" "svc1"
      ["viewer"] ["teamA", "teamB"] (by decide) ()).2.1,
    (generateBinding_namespaced
      (stubClient nothingThere (fun name => Except.error (errNotFound "csr" name)))
      nothingThere_allCallsSucceed "ServiceAccount" "infra" "svc1"
      ["viewer"] ["teamA", "teamB"] (by decide) ()).2.2.2.2.2.1⟩


end GenKubecfg
